import Mathlib

/-!
Verification development for the RepGen transcript-to-CoT pipeline.

The Python modules `app/utils/military_nlp.py`, `app/utils/pytak_cot.py` and
`app/utils/reports.py` are shallowly embedded below.  Strings are modelled as
`List Char` internally (converted from `String` at the boundaries), Python
`re` patterns are modelled by a small backtracking regular-expression engine
with Python's leftmost / greedy / ordered-alternation semantics, Python
floats used for scores and coordinates are modelled as `ℚ`, and Python `int`
values as `ℤ`.  Every recursion is fuelled so that all definitions reduce in
the kernel.

Modelling notes (deliberate, stated once here):
* character classes `\d`, `\w`, `\s` and case conversion are modelled on the
  ASCII range (Python's are Unicode-aware);
* `$` is modelled as end-of-string (Python also lets `$` match just before a
  final newline);
* Python `int(str)` is modelled as optional sign plus decimal digits
  (Python additionally accepts surrounding whitespace and underscores);
* the third-party geodetic conversion `mgrs.MGRS().toLatLon` and the clock
  `pytak.cot_time` are not part of this repository; they are modelled as an
  explicit oracle parameter, resp. an explicit `now` parameter.
-/

namespace RepGen

/-! ### Characters and lists of characters -/

def isDigitC (c : Char) : Bool := 48 ≤ c.toNat && c.toNat ≤ 57

def isUpperC (c : Char) : Bool := 65 ≤ c.toNat && c.toNat ≤ 90

def isLowerC (c : Char) : Bool := 97 ≤ c.toNat && c.toNat ≤ 122

def isLetterC (c : Char) : Bool := isUpperC c || isLowerC c

/-- ASCII model of Python's `\w` (word character). -/
def isWordC (c : Char) : Bool := isLetterC c || isDigitC c || c = '_'

/-- ASCII model of Python's `\s`: space, tab, newline, vertical tab, form feed,
carriage return. -/
def isSpaceC (c : Char) : Bool :=
  c = ' ' || c = '\t' || c = '\n' || c.toNat = 11 || c.toNat = 12 || c.toNat = 13

def toLowerC (c : Char) : Char :=
  if isUpperC c then Char.ofNat (c.toNat + 32) else c

def toUpperC (c : Char) : Char :=
  if isLowerC c then Char.ofNat (c.toNat - 32) else c

def lowerL (l : List Char) : List Char := l.map toLowerC

def upperL (l : List Char) : List Char := l.map toUpperC

/-- Python `str.capitalize()`: first character upper-cased, the rest
lower-cased. -/
def capitalizeL : List Char → List Char
  | [] => []
  | c :: rest => toUpperC c :: lowerL rest

/-- Python `str.strip()` (whitespace on both ends). -/
def stripL (l : List Char) : List Char :=
  ((l.dropWhile isSpaceC).reverse.dropWhile isSpaceC).reverse

/-- Python `str.isdigit()` (ASCII model). -/
def isdigitL (l : List Char) : Bool := !l.isEmpty && l.all isDigitC

/-- Does `needle` occur at the start of `hay`? -/
def hasPrefixL : List Char → List Char → Bool
  | [], _ => true
  | _ :: _, [] => false
  | a :: as, b :: bs => a = b && hasPrefixL as bs

/-- Python `needle in hay` (substring containment). -/
def pyIn (needle hay : List Char) : Bool :=
  match hay with
  | [] => needle.isEmpty
  | _ :: rest => hasPrefixL needle hay || pyIn needle rest

/-- Python `hay.replace(" ", "")`: remove space characters (exactly U+0020). -/
def removeSpacesL (l : List Char) : List Char := l.filter (fun c => c ≠ ' ')

/-- Python `s.split(',')`: split on every comma, keeping empty pieces. -/
def splitCommaL (l : List Char) : List (List Char) := l.splitOnP (fun c => c = ',')

/-- Python `re.split(r'[,\s]+', s)`: split on maximal runs of commas and
whitespace, keeping empty pieces only at the two ends. -/
def splitSepRuns : ℕ → List Char → List (List Char)
  | 0, s => [s]
  | f + 1, s =>
    let sep := fun c => c = ',' || isSpaceC c
    let piece := s.takeWhile (fun c => !sep c)
    let rest := s.dropWhile (fun c => !sep c)
    match rest with
    | [] => [piece]
    | _ :: _ => piece :: splitSepRuns f (rest.dropWhile sep)

/-! ### Decimal rendering and parsing (Python `str`, `int`, `float`) -/

def dChar (d : ℕ) : Char := Char.ofNat (48 + d)

def natToCharsFuel : ℕ → ℕ → List Char
  | 0, _ => []
  | f + 1, n => if n < 10 then [dChar n] else natToCharsFuel f (n / 10) ++ [dChar (n % 10)]

def strOfNat (n : ℕ) : List Char := natToCharsFuel (n + 1) n

/-- Python `str(i)` for an `int` `i`: decimal digits, `-`-prefixed when
negative. -/
def strOfInt (i : ℤ) : List Char :=
  if i < 0 then '-' :: strOfNat i.natAbs else strOfNat i.toNat

def digitsToNat (l : List Char) : ℕ := l.foldl (fun a c => a * 10 + (c.toNat - 48)) 0

def parseNatL : List Char → Option ℕ
  | l => if !l.isEmpty && l.all isDigitC then some (digitsToNat l) else none

/-- Python `int(s)` on a string: optional sign followed by decimal digits;
`none` models a raised `ValueError`. -/
def pyIntL : List Char → Option ℤ
  | [] => none
  | c :: rest =>
    if c = '-' then (parseNatL rest).map (fun n => -(Int.ofNat n))
    else if c = '+' then (parseNatL rest).map Int.ofNat
    else (parseNatL (c :: rest)).map Int.ofNat

def pyInt (s : String) : Option ℤ := pyIntL s.data

/-- Python `float(s)` on strings of the shape `[-]?\d+\.?\d*` (the only shape
at which the code applies it).  Other inputs are mapped to `0`. -/
def parseFloatQ (l : List Char) : ℚ :=
  let (sign, l) : ℚ × List Char := match l with
    | '-' :: rest => (-1, rest)
    | rest => (1, rest)
  let intPart := l.takeWhile isDigitC
  let rest := l.dropWhile isDigitC
  let frac := match rest with
    | '.' :: fs => fs.takeWhile isDigitC
    | _ => []
  sign * ((digitsToNat intPart : ℚ) + (digitsToNat frac : ℚ) / (10 : ℚ) ^ frac.length)

/-! ### Association lists as Python `dict` (string keys, insertion order) -/

/-- Field maps: Python `dict[str, str]` with insertion order. -/
abbrev FieldMap := List (String × String)

def alGet : List (String × String) → String → Option String
  | [], _ => none
  | (k, v) :: rest, key => if k = key then some v else alGet rest key

/-- Python `d[k] = v`: update in place when the key exists, append
otherwise. -/
def alSet : List (String × String) → String → String → List (String × String)
  | [], key, v => [(key, v)]
  | (k, w) :: rest, key, v =>
    if k = key then (key, v) :: rest else (k, w) :: alSet rest key v

def hasKey (m : List (String × String)) (k : String) : Bool := (alGet m k).isSome

/-- Python `d.get(k, default)`. -/
def alGetD (m : List (String × String)) (k : String) (dflt : String) : String :=
  (alGet m k).getD dflt

/-! ### A small backtracking regular-expression engine

Python `re` semantics: leftmost match, ordered alternation (left first),
greedy and lazy repetition, capturing groups, word boundaries, anchors and
zero-width lookahead.  The matcher is written in continuation-passing style
so that the first match in Python's preference order is produced, and it is
fuelled so that it reduces in the kernel; every pattern used below has
non-nullable repetition bodies, so the fuel is never the limiting factor on
the inputs considered. -/

inductive RE : Type where
  | eps : RE
  | cls : (Char → Bool) → RE
  | seq : RE → RE → RE
  | alt : RE → RE → RE
  | rep : Bool → RE → RE
  | grp : ℕ → RE → RE
  | look : RE → RE
  | wordB : RE
  | bos : RE
  | eos : RE

abbrev Caps := List (ℕ × List Char)

/-- Word-boundary test: `prev` is the character just before the current
position (`none` at the start of the whole string). -/
def atBoundary (prev : Option Char) (s : List Char) : Bool :=
  let pw := match prev with | some c => isWordC c | none => false
  let nw := match s with | c :: _ => isWordC c | [] => false
  pw != nw

/-- CPS backtracking matcher.  `k` receives the previous character, the
remaining input and the accumulated captures; the first continuation success
in Python's preference order wins. -/
def reMk (f : ℕ) (re : RE) (prev : Option Char) (s : List Char) (caps : Caps)
    (k : Option Char → List Char → Caps → Option (List Char × Caps)) :
    Option (List Char × Caps) :=
  match f with
  | 0 => none
  | f + 1 =>
    match re with
    | .eps => k prev s caps
    | .cls p =>
      match s with
      | c :: rest => if p c then k (some c) rest caps else none
      | [] => none
    | .seq a b => reMk f a prev s caps (fun p1 s1 c1 => reMk f b p1 s1 c1 k)
    | .alt a b =>
      (reMk f a prev s caps k).orElse (fun _ => reMk f b prev s caps k)
    | .rep true a =>
      (reMk f a prev s caps (fun p1 s1 c1 =>
        if s1.length = s.length then none else reMk f (.rep true a) p1 s1 c1 k)).orElse
        (fun _ => k prev s caps)
    | .rep false a =>
      (k prev s caps).orElse (fun _ =>
        reMk f a prev s caps (fun p1 s1 c1 =>
          if s1.length = s.length then none else reMk f (.rep false a) p1 s1 c1 k))
    | .grp n a =>
      reMk f a prev s caps (fun p1 s1 c1 =>
        k p1 s1 ((n, s.take (s.length - s1.length)) :: c1))
    | .look a =>
      match reMk f a prev s caps (fun _ _ c1 => some ([], c1)) with
      | some _ => k prev s caps
      | none => none
    | .wordB => if atBoundary prev s then k prev s caps else none
    | .bos => if prev.isNone then k prev s caps else none
    | .eos => if s.isEmpty then k prev s caps else none

/-- Result of a successful `re.search`: the text before the match, the match
itself (group 0), the captures and the text after the match. -/
structure MatchRes where
  pre : List Char
  matched : List Char
  caps : Caps
  post : List Char
deriving DecidableEq

def matchFuel (s : List Char) : ℕ := 2 * s.length + 400

/-- Attempt a match exactly at the current position. -/
def tryMatchAt (re : RE) (prev : Option Char) (s : List Char) :
    Option (List Char × Caps) :=
  reMk (matchFuel s) re prev s [] (fun _ s1 c1 => some (s1, c1))

def searchFromAux (re : RE) : Option Char → List Char → List Char → Option MatchRes
  | prev, preRev, s =>
    match tryMatchAt re prev s with
    | some (s1, c1) =>
      some ⟨preRev.reverse, s.take (s.length - s1.length), c1, s1⟩
    | none =>
      match s with
      | [] => none
      | c :: rest => searchFromAux re (some c) (c :: preRev) rest

/-- Python `re.search`: leftmost match. -/
def reSearch (re : RE) (s : List Char) : Option MatchRes :=
  searchFromAux re none [] s

/-- Python `re.match`: anchored at the start. -/
def reMatchStart (re : RE) (s : List Char) : Option MatchRes :=
  match tryMatchAt re none s with
  | some (s1, c1) => some ⟨[], s.take (s.length - s1.length), c1, s1⟩
  | none => none

def MatchRes.group (m : MatchRes) (n : ℕ) : List Char :=
  match m.caps.lookup n with
  | some g => g
  | none => []

/-- Python `re.sub` with a replacement function: scan left to right over
non-overlapping matches, continuing after each replaced span (a zero-width
match consumes one extra source character, as in Python). -/
def reSubAux (re : RE) (rep : MatchRes → List Char) :
    ℕ → Option Char → List Char → List Char
  | 0, _, s => s
  | f + 1, prev, s =>
    match searchFromAux re prev [] s with
    | none => s
    | some m =>
      match m.matched.getLast? with
      | some lastC =>
        m.pre ++ rep m ++ reSubAux re rep f (some lastC) m.post
      | none =>
        match m.post with
        | [] => m.pre ++ rep m
        | c :: rest => m.pre ++ rep m ++ c :: reSubAux re rep f (some c) rest

def reSub (re : RE) (rep : MatchRes → List Char) (s : List Char) : List Char :=
  reSubAux re rep (s.length + 1) none s

/-! Pattern construction helpers.  Case-insensitive matching (`re.IGNORECASE`)
is baked into the character predicates of each pattern at construction. -/

def chr (c : Char) : RE := .cls (fun x => x = c)

/-- A literal character under `re.IGNORECASE`. -/
def chrCI (c : Char) : RE := .cls (fun x => toLowerC x = toLowerC c)

def strR (s : String) : RE := (s.data.map chr).foldr RE.seq .eps

def strCI (s : String) : RE := (s.data.map chrCI).foldr RE.seq .eps

def digitR : RE := .cls isDigitC

def spaceR : RE := .cls isSpaceC

/-- Python `.` (any character except newline). -/
def dotR : RE := .cls (fun c => c ≠ '\n')

def plusR (r : RE) : RE := .seq r (.rep true r)

def plusLazy (r : RE) : RE := .seq r (.rep false r)

def starR (r : RE) : RE := .rep true r

def starLazy (r : RE) : RE := .rep false r

def optR (r : RE) : RE := .alt r .eps

def altList : List RE → RE
  | [] => .eps
  | [r] => r
  | r :: rest => .alt r (altList rest)

/-- `r{n}`: exactly `n` copies. -/
def repExact : ℕ → RE → RE
  | 0, _ => .eps
  | n + 1, r => .seq r (repExact n r)

/-- Greedy optional copies, nested so that longer runs are preferred. -/
def repOpt : ℕ → RE → RE
  | 0, _ => .eps
  | k + 1, r => optR (.seq r (repOpt k r))

/-- `r{m,n}`: `m` copies then `n - m` greedy optional copies. -/
def repRange (m n : ℕ) (r : RE) : RE :=
  .seq (repExact m r) (repOpt (n - m) r)

/-- `r{m,}`: `m` copies then a greedy star. -/
def repAtLeast (m : ℕ) (r : RE) : RE := .seq (repExact m r) (starR r)

def seqList : List RE → RE
  | [] => .eps
  | r :: rest => .seq r (seqList rest)

/-! ### `military_nlp.py`: phonetic tables and normalizer -/

/-- `PHONETIC_NUMBERS`, in dict insertion order. -/
def PHONETIC_NUMBERS : List (String × Char) :=
  [("zero", '0'), ("one", '1'), ("two", '2'), ("tree", '3'), ("three", '3'),
   ("fower", '4'), ("four", '4'), ("fife", '5'), ("five", '5'),
   ("six", '6'), ("seven", '7'), ("eight", '8'), ("niner", '9'), ("nine", '9')]

/-- `PHONETIC_ALPHABET`, in dict insertion order. -/
def PHONETIC_ALPHABET : List (String × Char) :=
  [("alpha", 'A'), ("bravo", 'B'), ("charlie", 'C'), ("delta", 'D'), ("echo", 'E'),
   ("foxtrot", 'F'), ("golf", 'G'), ("hotel", 'H'), ("india", 'I'), ("juliet", 'J'),
   ("kilo", 'K'), ("lima", 'L'), ("mike", 'M'), ("november", 'N'), ("oscar", 'O'),
   ("papa", 'P'), ("quebec", 'Q'), ("romeo", 'R'), ("sierra", 'S'), ("tango", 'T'),
   ("uniform", 'U'), ("victor", 'V'), ("whiskey", 'W'), ("x-ray", 'X'), ("xray", 'X'),
   ("yankee", 'Y'), ("zulu", 'Z')]

/-- Pattern `\b<word>\b` under `re.IGNORECASE`. -/
def phoneticNumPat (w : String) : RE := seqList [.wordB, strCI w, .wordB]

/-- Pattern `\b<word>\b(?=\s*[,\-\s]|$)` under `re.IGNORECASE`. -/
def phoneticAlphaPat (w : String) : RE :=
  seqList [.wordB, strCI w, .wordB,
    .look (.alt (.seq (starR spaceR) (.cls (fun c => c = ',' || c = '-' || isSpaceC c))) .eos)]

/-- `convert_phonetic_to_standard`: substitute phonetic digit words, then
phonetic alphabet words used as letter codes. -/
def convert_phonetic_to_standard (text : List Char) : List Char :=
  let result := PHONETIC_NUMBERS.foldl
    (fun r pd => reSub (phoneticNumPat pd.1) (fun _ => [pd.2]) r) text
  PHONETIC_ALPHABET.foldl
    (fun r pl => reSub (phoneticAlphaPat pl.1) (fun _ => [pl.2]) r) result

/-- `process_grid_sequence`: split on commas/whitespace and keep phonetic
letters, phonetic digits and digit groups. -/
def process_grid_sequence (text : List Char) : List Char :=
  let parts := splitSepRuns (text.length + 1) text
  (parts.filterMap (fun part =>
    let part := upperL (stripL part)
    if part.isEmpty then none
    else
      match PHONETIC_ALPHABET.find? (fun pl => part = upperL pl.1.data) with
      | some pl => some [pl.2]
      | none =>
        match PHONETIC_NUMBERS.find? (fun pd => part = upperL pd.1.data) with
        | some pd => some [pd.2]
        | none => if isdigitL part then some part else none)).flatten

/-- Pattern `\b\d\s*,\s*\d(?:\s*,\s*\d)*(?:\s*,\s*\d+\.\d+)?\b` (comma-spoken
digit runs, e.g. frequencies). -/
def freqRunPat : RE :=
  seqList [.wordB, digitR, starR spaceR, chr ',', starR spaceR, digitR,
    starR (seqList [starR spaceR, chr ',', starR spaceR, digitR]),
    optR (seqList [starR spaceR, chr ',', starR spaceR, plusR digitR, chr '.', plusR digitR]),
    .wordB]

/-- `merge_frequency` replacement callback in `preprocess_military_transcript`. -/
def merge_frequency (m : MatchRes) : List Char :=
  let parts := splitCommaL m.matched
  let lastP := stripL (parts.getLastD [])
  if pyIn ['.'] lastP then
    ((parts.dropLast.map stripL).flatten) ++
      '.' :: (lastP.splitOnP (fun c => c = '.')).getLastD []
  else (parts.map stripL).flatten

/-- Pattern `(?:grid\s+)?((?:\d+\s*,\s*)+(?:[A-Z][a-z]+\s*,\s*)+(?:\d+\s*,?\s*)+)`
under `re.IGNORECASE` (digit groups, then phonetic words, then digit groups,
comma-separated). -/
def gridRunPat : RE :=
  .seq (optR (seqList [strCI "grid", plusR spaceR]))
    (.grp 1 (seqList
      [plusR (seqList [plusR digitR, starR spaceR, chr ',', starR spaceR]),
       plusR (seqList [.cls isLetterC, plusR (.cls isLetterC), starR spaceR, chr ',', starR spaceR]),
       plusR (seqList [plusR digitR, optR (chr ','), starR spaceR])]))

/-- First stage of `preprocess_military_transcript`: collapse comma-separated
digit runs. -/
def preprocessFreqStage (t : List Char) : List Char := reSub freqRunPat merge_frequency t

/-- Second stage: splice spelled-out grids, prefixing the literal `grid `. -/
def preprocessGridStage (t : List Char) : List Char :=
  reSub gridRunPat (fun m => "grid ".data ++ process_grid_sequence (m.group 1)) t

/-- `preprocess_military_transcript`: frequency-run merging, then grid
splicing, then phonetic conversion. -/
def preprocess_military_transcript (transcript : List Char) : List Char :=
  convert_phonetic_to_standard (preprocessGridStage (preprocessFreqStage transcript))

/-! ### `reports.py`: `load_report_templates` -/

structure FieldSpec where
  id : String
  label : String
  required : Bool
  ftype : String
  placeholder : String
deriving DecidableEq

structure ReportTemplate where
  title : String
  description : String
  cot_type : String
  xml_element : String
  fields : List FieldSpec
deriving DecidableEq

def contactrepTemplate : ReportTemplate :=
    { title := "Contact Report", description := "Report enemy contact or engagement",
      cot_type := "a-h-G", xml_element := "contact_report",
      fields :=
        [⟨"size", "Size of Enemy Unit", true, "text", "Squad sized, 4-6 personnel"⟩,
         ⟨"activity", "Activity of Enemy", true, "text", "Small arms fire, movement"⟩,
         ⟨"location_desc", "Location of Enemy", true, "text", "MGRS: 34TFM12345678"⟩,
         ⟨"unit_id", "Unit Identification", true, "text", "Unknown infantry"⟩,
         ⟨"time_observed", "Time of Observation", true, "text", "DDMMMYY HHMMZ"⟩,
         ⟨"equipment", "Equipment Observed", true, "text", "Small arms, technical vehicles"⟩] }

def sitrepTemplate : ReportTemplate :=
    { title := "Situation Report", description := "Regular update on unit status and situation",
      cot_type := "a-f-G-U-C", xml_element := "sitrep",
      fields :=
        [⟨"dtg", "Date-Time Group (DTG)", true, "text", "DDMMMYY HHMMZ"⟩,
         ⟨"reporting_unit", "Reporting Unit", true, "text", "Unit designation"⟩,
         ⟨"location_desc", "Location", true, "text", "MGRS: 34TFM12345678"⟩,
         ⟨"situation", "Situation Summary", true, "text", "Brief description of current situation"⟩,
         ⟨"personnel", "Personnel Status", true, "text", "Personnel strength and status"⟩,
         ⟨"equipment_status", "Equipment Status", true, "text", "Status of key equipment"⟩,
         ⟨"supplies_status", "Supplies Status", true, "text", "Status of supplies"⟩,
         ⟨"mission_status", "Mission Status", true, "text", "Progress towards mission objectives"⟩,
         ⟨"comms_status", "Communications Status", false, "text", "Status of communications systems"⟩,
         ⟨"next_report", "Next Report Time", false, "text", "When next report will be sent"⟩] }

def medevacTemplate : ReportTemplate :=
    { title := "Medical Evacuation Request", description := "Request for medical evacuation",
      cot_type := "b-r-f-h-c", xml_element := "medevac",
      fields :=
        [⟨"pickup_location", "Location of Pickup Site", true, "text", "MGRS: 34TFM12345678"⟩,
         ⟨"radio_freq", "Radio Frequency & Callsign", true, "text", "38.50 MHz, Alpha 2-1"⟩,
         ⟨"patients_precedence", "Number of Patients by Precedence", true, "text", "2 urgent, 1 priority"⟩,
         ⟨"special_equipment", "Special Equipment Required", false, "text", "None"⟩,
         ⟨"patients_type", "Number of Patients by Type", true, "text", "2 litter, 1 ambulatory"⟩,
         ⟨"security", "Security at Pickup Site", true, "text", "No enemy, secured LZ"⟩,
         ⟨"marking_method", "Method of Marking Pickup Site", true, "text", "VS-17 panel"⟩,
         ⟨"patient_status", "Patient Nationality & Status", false, "text", "US military"⟩,
         ⟨"nbc_contamination", "NBC Contamination", false, "text", "None"⟩] }

def spotrepTemplate : ReportTemplate :=
    { title := "Spot Report", description := "Report time-sensitive observations",
      cot_type := "a-f-G-E", xml_element := "spot_report",
      fields :=
        [⟨"size", "Size", true, "text", "Squad sized, platoon, etc."⟩,
         ⟨"activity", "Activity", true, "text", "What was observed"⟩,
         ⟨"location_desc", "Location", true, "text", "MGRS: 34TFM12345678"⟩,
         ⟨"unit", "Unit", true, "text", "Unknown infantry, armor, etc."⟩,
         ⟨"time_observed", "Time Observed", true, "text", "DDMMMYY HHMMZ"⟩,
         ⟨"equipment", "Equipment", true, "text", "Weapons, vehicles observed"⟩] }

def saluteTemplate : ReportTemplate :=
    { title := "SALUTE Report",
      description := "Size, Activity, Location, Unit, Time, Equipment report",
      cot_type := "a-h-G-U-C-I", xml_element := "salute",
      fields :=
        [⟨"size", "Size", true, "text", "Number of personnel, vehicles, etc."⟩,
         ⟨"activity", "Activity", true, "text", "What they are doing"⟩,
         ⟨"location_desc", "Location", true, "text", "MGRS: 34TFM12345678"⟩,
         ⟨"unit", "Unit", true, "text", "Unit identification if known"⟩,
         ⟨"time", "Time", true, "text", "Time of observation"⟩,
         ⟨"equipment", "Equipment", true, "text", "Equipment observed"⟩] }

def patrolrepTemplate : ReportTemplate :=
    { title := "Patrol Report", description := "Report on patrol activities and observations",
      cot_type := "a-f-G-P", xml_element := "patrol_report",
      fields :=
        [⟨"patrol_number", "Patrol Number", true, "text", "Patrol identifier"⟩,
         ⟨"task_purpose", "Task and Purpose", true, "text", "Mission objective"⟩,
         ⟨"time_departed", "Time Departed", true, "text", "DDMMMYY HHMMZ"⟩,
         ⟨"time_returned", "Time Returned", true, "text", "DDMMMYY HHMMZ"⟩,
         ⟨"route", "Route Used", true, "text", "Description or checkpoints"⟩,
         ⟨"terrain", "Terrain", false, "text", "Terrain description"⟩,
         ⟨"weather", "Weather", false, "text", "Weather conditions"⟩,
         ⟨"enemy_contact", "Enemy Contact", true, "text", "Any enemy contact made"⟩,
         ⟨"obstacles", "Obstacles Encountered", false, "text", "Obstacles or impediments"⟩,
         ⟨"conclusion", "Conclusion", true, "text", "Summary and recommendations"⟩] }

def load_report_templates : List (String × ReportTemplate) :=
  [("CONTACTREP", contactrepTemplate), ("SITREP", sitrepTemplate),
   ("MEDEVAC", medevacTemplate), ("SPOTREP", spotrepTemplate),
   ("SALUTE", saluteTemplate), ("PATROLREP", patrolrepTemplate)]

/-- The field ids a template declares as required. -/
def requiredFieldIds (t : ReportTemplate) : List String :=
  (t.fields.filter (fun f => f.required)).map (fun f => f.id)

/-! ### `military_nlp.py`: report classifier -/

structure Indicators where
  keywords : List String
  priority_indicators : List String
  weight : ℚ

/-- `REPORT_TYPE_INDICATORS`, in dict insertion order. -/
def REPORT_TYPE_INDICATORS : List (String × Indicators) :=
  [("CONTACTREP",
    { keywords := ["enemy contact", "troops in contact", "TIC", "engaged", "receiving fire",
        "contact report", "hostile", "enemy activity", "under fire", "engagement"],
      priority_indicators := ["immediate", "troops in contact", "casualty", "under fire"],
      weight := 3/2 }),
   ("MEDEVAC",
    { keywords := ["casualty", "wounded", "injured", "medevac", "medical evacuation",
        "nine line", "9 line", "patient", "urgent surgical", "priority patient",
        "litter", "ambulatory", "ventilator", "bleeding"],
      priority_indicators := ["urgent", "flash", "immediate", "critical"],
      weight := 2 }),
   ("SITREP",
    { keywords := ["situation report", "sitrep", "status update", "current situation",
        "nothing to report", "all quiet", "routine", "normal operations"],
      priority_indicators := ["routine", "no change"],
      weight := 1/2 }),
   ("SPOTREP",
    { keywords := ["spot report", "spotrep", "observed", "sighting", "surveillance",
        "enemy movement", "vehicle spotted", "personnel observed"],
      priority_indicators := ["immediate", "priority"],
      weight := 1 }),
   ("SALUTE",
    { keywords := ["size", "activity", "location", "unit", "time", "equipment",
        "salute report", "enemy observation"],
      priority_indicators := ["priority", "immediate"],
      weight := 6/5 })]

/-- One report type's normalized score: weight per matched keyword plus half
a point per matched priority indicator, divided by the keyword-list length
when at least one keyword matched, else 0. -/
def classifierScore (transcript_lower : List Char) (ind : Indicators) : ℚ :=
  let keyword_matches := ind.keywords.countP (fun kw => pyIn kw.data transcript_lower)
  let score : ℚ := (keyword_matches : ℚ) * ind.weight +
    (ind.priority_indicators.countP (fun pw => pyIn pw.data transcript_lower) : ℚ) * (1/2)
  if 0 < keyword_matches then score / (ind.keywords.length : ℚ) else 0

/-- The `scores` dict, in indicator-table order, restricted to types with a
template. -/
def classifierScores (transcript_lower : List Char) (templateKeys : List String) :
    List (String × ℚ) :=
  REPORT_TYPE_INDICATORS.filterMap (fun ri =>
    if templateKeys.contains ri.1 then
      some (ri.1, classifierScore transcript_lower ri.2)
    else none)

/-- Python `max(scores.items(), key=...)`: the first item attaining the
maximal score. -/
def bestScore (rest : List (String × ℚ)) (s0 : String × ℚ) : String × ℚ :=
  rest.foldl (fun b p => if b.2 < p.2 then p else b) s0

/-- `determine_report_type_enhanced`: weighted keyword scoring with a
report-type-literal fallback. -/
def determine_report_type_enhanced (transcript : String)
    (report_templates : List (String × ReportTemplate)) : String × ℚ :=
  let transcript_lower := lowerL transcript.data
  match classifierScores transcript_lower (report_templates.map Prod.fst) with
  | [] => ("SITREP", 3/10)
  | s0 :: rest =>
    let best := bestScore rest s0
    let confidence := min (best.2 / 2) 1
    if confidence < 3/10 then
      match report_templates.find? (fun tp => pyIn (lowerL tp.1.data) transcript_lower) with
      | some tp => (tp.1, 4/5)
      | none => (best.1, confidence)
    else (best.1, confidence)

/-! ### `military_nlp.py`: validation -/

/-- Python `int(validated.get(key, 0))`: an absent key contributes the `int` 0,
a present value is parsed (`none` models a raised `ValueError`). -/
def pyIntGetD (m : FieldMap) (key : String) : Option ℤ :=
  match alGet m key with
  | none => some (0 : ℤ)
  | some s => pyInt s

/-- Pattern `^[0-9]{1,2}[A-Z]{1,3}[A-Z]{2}[0-9]+$` (bare MGRS grid, used with
`re.match`). -/
def bareGridPat : RE :=
  seqList [.bos, repRange 1 2 digitR, repRange 1 3 (.cls isUpperC),
    repExact 2 (.cls isUpperC), plusR digitR, .eos]

/-- Grid re-normalization step of `validate_military_extraction` for one
field: uppercase, strip spaces, keep when the bare-grid pattern matches. -/
def validateGridField (m : FieldMap) (field : String) : FieldMap :=
  match alGet m field with
  | some v =>
    if v ≠ "" then
      let grid := removeSpacesL (upperL v.data)
      if (reMatchStart bareGridPat grid).isSome then alSet m field (String.mk grid) else m
    else m
  | none => m

def size_map : List (String × String) :=
  [("team", "4"), ("squad", "9"), ("platoon", "30"), ("company", "120")]

/-- MEDEVAC block of `validate_military_extraction`, first part: escalate
precedence when equipment indicates a ventilator or trauma team. -/
def medevacPrecedenceRepair (validated : FieldMap) : FieldMap :=
  if lowerL (alGetD validated "special_equipment" "").data = "ventilator".data ∨
      lowerL (alGetD validated "special_equipment" "").data = "trauma team".data then
    if lowerL (alGetD validated "patient_precedence" "").data = "priority".data then
      alSet validated "patient_precedence" "Urgent surgical"
    else validated
  else validated

/-- The litter/ambulatory pair chosen by the count repair: derive the missing
side by subtraction, or apply the default split `litter = max(1, total // 2)`
(Python `//` is floor division). -/
def medevacSplit (total litter ambulatory : ℤ) : ℤ × ℤ :=
  if 0 < litter ∧ ambulatory = 0 then (litter, total - litter)
  else if 0 < ambulatory ∧ litter = 0 then (total - ambulatory, ambulatory)
  else (max 1 (Int.fdiv total 2), total - max 1 (Int.fdiv total 2))

/-- MEDEVAC block of `validate_military_extraction`, second part: make
patient counts add up (the `try`/`except (ValueError, TypeError): pass`
leaves the map unchanged when any `int()` raises). -/
def medevacCountsRepair (validated : FieldMap) : FieldMap :=
  match pyIntGetD validated "number_patients", pyIntGetD validated "number_litter",
      pyIntGetD validated "number_ambulatory" with
  | some total, some litter, some ambulatory =>
    if litter + ambulatory ≠ total ∧ 0 < total then
      alSet (alSet validated "number_litter"
          (String.mk (strOfInt (medevacSplit total litter ambulatory).1)))
        "number_ambulatory" (String.mk (strOfInt (medevacSplit total litter ambulatory).2))
    else validated
  | _, _, _ => validated

/-- CONTACTREP block of `validate_military_extraction`: annotate an echelon
name with an approximate personnel count. -/
def contactrepSizeRepair (validated : FieldMap) : FieldMap :=
  let size_field := alGetD validated "enemy_size" ""
  if size_field ≠ "" ∧ ¬ size_field.data.any (fun c => isDigitC c) then
    match size_map.find? (fun uc => pyIn uc.1.data (lowerL size_field.data)) with
    | some uc =>
      alSet validated "enemy_size"
        (String.mk (size_field.data ++ " (~".data ++ uc.2.data ++ " personnel)".data))
    | none => validated
  else validated

/-- Universal validations of `validate_military_extraction`: upper-case the
reporting unit and re-normalize bare grids. -/
def universalValidations (validated : FieldMap) : FieldMap :=
  let validated :=
    match alGet validated "reporting_unit" with
    | some v =>
      if v ≠ "" then alSet validated "reporting_unit" (String.mk (upperL v.data))
      else validated
    | none => validated
  validateGridField (validateGridField (validateGridField validated "location") "grid")
    "pickup_location"

/-- `validate_military_extraction`: military logic repair rules. -/
def validate_military_extraction (report_type : String) (extracted_fields : FieldMap) :
    FieldMap :=
  let validated :=
    if report_type = "MEDEVAC" then
      medevacCountsRepair (medevacPrecedenceRepair extracted_fields)
    else if report_type = "CONTACTREP" then contactrepSizeRepair extracted_fields
    else extracted_fields
  universalValidations validated

/-! ### `military_nlp.py`: callsign extraction -/

/-- Character class `[A-Z0-9\-\s]` under `re.IGNORECASE`. -/
def callsignBodyC : RE :=
  .cls (fun c => isLetterC c || isDigitC c || c = '-' || isSpaceC c)

/-- Terminator `(?:,|\.|$)`. -/
def termCommaDotEnd : RE := altList [chr ',', chr '.', .eos]

/-- The five `callsign_patterns` of `extract_callsign_from_transcript`. -/
def extractCallsignPats : List RE :=
  [seqList [strCI "this is ", .grp 1 (.seq (.cls isLetterC) (plusLazy callsignBodyC)), termCommaDotEnd],
   seqList [.grp 1 (.seq (.cls isLetterC) (plusLazy callsignBodyC)), strCI " calling"],
   seqList [strCI "from ", .grp 1 (.seq (.cls isLetterC) (plusLazy callsignBodyC)), termCommaDotEnd],
   seqList [strCI "callsign ", .grp 1 (.seq (.cls isLetterC) (plusLazy callsignBodyC)), termCommaDotEnd],
   seqList [.bos, .grp 1 (.seq (.cls isLetterC) (plusLazy callsignBodyC)), strCI " to"]]

def extractCallsignGo : List RE → List Char → Option String
  | [], _ => none
  | p :: rest, tUpper =>
    match reSearch p tUpper with
    | some m =>
      let callsign := stripL (m.group 1)
      if 2 < callsign.length ∧ ¬ isdigitL callsign then some (String.mk callsign)
      else extractCallsignGo rest tUpper
    | none => extractCallsignGo rest tUpper

/-- `extract_callsign_from_transcript`: first pattern whose (stripped) capture
is longer than 2 and not all digits. -/
def extract_callsign_from_transcript (transcript : String) : Option String :=
  extractCallsignGo extractCallsignPats (upperL transcript.data)

/-! ### `military_nlp.py`: regex fallback field extraction -/

/-- Try a list of patterns in order; first pattern with a match anywhere
wins. -/
def firstSearch : List RE → List Char → Option MatchRes
  | [], _ => none
  | p :: rest, t =>
    match reSearch p t with
    | some m => some m
    | none => firstSearch rest t

/-- The three `callsign_patterns` of `extract_fields_with_fallback`. -/
def fallbackCallsignPats : List RE :=
  [seqList [altList [strCI "this is", strCI "I'm", strCI "we're"], plusR spaceR,
     .grp 1 (seqList [.cls isLetterC, plusR (.cls isLetterC),
       plusR (.cls (fun c => isSpaceC c || c = ',')), plusR digitR,
       plusR (.cls (fun c => isSpaceC c || c = ',')), plusR digitR])],
   seqList [altList [strCI "callsign", strCI "call sign"], plusR spaceR,
     .grp 1 (seqList [.cls isLetterC, plusR (.cls isLetterC),
       plusR (.cls (fun c => isSpaceC c || c = '-')), plusR digitR,
       plusR (.cls (fun c => isSpaceC c || c = '-')), plusR digitR])],
   seqList [.bos,
     .grp 1 (seqList [.cls isLetterC, plusR (.cls isLetterC),
       plusR (.cls (fun c => isSpaceC c || c = ',')), plusR digitR,
       plusR (.cls (fun c => isSpaceC c || c = ',')), plusR digitR])]]

/-- Pattern `[,\s]+` (used to normalize a captured callsign). -/
def commaSpaceRunPat : RE := plusR (.cls (fun c => c = ',' || isSpaceC c))

def fallbackCallsignStep (t : List Char) (fields : FieldMap) : FieldMap :=
  match firstSearch fallbackCallsignPats t with
  | some m =>
    let callsign := stripL (m.group 1)
    let callsign := stripL (reSub commaSpaceRunPat (fun _ => [' ']) callsign)
    alSet fields "reporting_unit" (String.mk (upperL callsign))
  | none => fields

/-- The three `grid_patterns` of `extract_fields_with_fallback`. -/
def fallbackGridPats : List RE :=
  [seqList [strCI "grid", plusR spaceR,
     .grp 1 (seqList [plusR (.cls (fun c => isDigitC c || isSpaceC c || c = ',')),
       plusR (.cls (fun c => isLetterC c || isSpaceC c || c = ',')),
       plusR (.cls (fun c => isDigitC c || isSpaceC c || c = ','))])],
   seqList [strCI "grid", plusR spaceR,
     .grp 1 (plusR (.cls (fun c => isDigitC c || isLetterC c)))],
   seqList [altList [strCI "location", strCI "position", strCI "at"], plusR spaceR,
     strCI "grid", plusR spaceR,
     .grp 1 (plusR (.cls (fun c => isDigitC c || isSpaceC c || isLetterC c || c = ',')))]]

/-- Pattern `[A-Za-z]{2,}`. -/
def twoLettersPat : RE := repAtLeast 2 (.cls isLetterC)

def fallbackGridStep (t : List Char) (fields : FieldMap) : FieldMap :=
  match firstSearch fallbackGridPats t with
  | some m =>
    let grid_text := m.group 1
    if pyIn [','] grid_text ∨ (reSearch twoLettersPat grid_text).isSome then
      alSet fields "location" (String.mk (process_grid_sequence grid_text))
    else alSet fields "location" (String.mk (removeSpacesL (upperL grid_text)))
  | none => fields

/-- The three `freq_patterns` of `extract_fields_with_fallback`. -/
def fallbackFreqPats : List RE :=
  [seqList [altList [strCI "freq", strCI "frequency"], plusR spaceR,
     .grp 1 (plusR (.cls (fun c => isDigitC c || isSpaceC c || c = ',' || c = '.')))],
   seqList [altList [strCI "radio", strCI "channel"], plusR spaceR,
     .grp 1 (plusR (.cls (fun c => isDigitC c || isSpaceC c || c = ',' || c = '.')))],
   seqList [strCI "on", plusR spaceR,
     .grp 1 (plusR (.cls (fun c => isDigitC c || isSpaceC c || c = ',' || c = '.'))),
     plusR spaceR, altList [strCI "MHz", strCI "megahertz"]]]

def fallbackFreqStep (t : List Char) (fields : FieldMap) : FieldMap :=
  match firstSearch fallbackFreqPats t with
  | some m =>
    let freq_text := m.group 1
    if pyIn [','] freq_text then
      let parts := splitCommaL freq_text
      if pyIn ['.'] (parts.getLastD []) then
        alSet fields "frequency" (String.mk
          ((parts.dropLast.map stripL).flatten ++
            '.' :: ((stripL (parts.getLastD [])).splitOnP (fun c => c = '.')).getLastD []))
      else alSet fields "frequency" (String.mk (parts.map stripL).flatten)
    else alSet fields "frequency" (String.mk (stripL freq_text))
  | none => fields

/-- The three `patient_patterns` of `extract_fields_with_fallback`. -/
def fallbackPatientPats : List RE :=
  [seqList [.grp 1 (plusR digitR), plusR spaceR,
     altList [strCI "casualties", strCI "casualty", .seq (strCI "patient") (optR (chrCI 's')),
       strCI "wounded"]],
   seqList [altList [strCI "have", strCI "got"], plusR spaceR, .grp 1 (plusR digitR),
     plusR spaceR, altList [strCI "down", strCI "injured", strCI "hurt"]],
   seqList [.grp 1 (plusR digitR), plusR spaceR, strCI "urgent", plusR spaceR, strCI "surgical"]]

def fallbackPatientStep (t : List Char) (fields : FieldMap) : FieldMap :=
  match firstSearch fallbackPatientPats t with
  | some m => alSet fields "number_patients" (String.mk (m.group 1))
  | none => fields

/-- Pattern `(\d+)\s+urgent\s+surgical`. -/
def urgentSurgicalPat : RE :=
  seqList [.grp 1 (plusR digitR), plusR spaceR, strCI "urgent", plusR spaceR, strCI "surgical"]

def fallbackPrecedenceStep (t : List Char) (fields : FieldMap) : FieldMap :=
  if pyIn "urgent surgical".data (lowerL t) then
    match reSearch urgentSurgicalPat t with
    | some m =>
      alSet fields "patient_precedence" (String.mk (m.group 1 ++ " urgent surgical".data))
    | none => fields
  else fields

/-- Pattern `(\d+)\s+(?:can walk|walking|ambulatory)`. -/
def ambulatoryPat : RE :=
  seqList [.grp 1 (plusR digitR), plusR spaceR,
    altList [strCI "can walk", strCI "walking", strCI "ambulatory"]]

def fallbackLitterStep (t : List Char) (fields : FieldMap) : FieldMap :=
  match reSearch ambulatoryPat t with
  | some m =>
    let fields := alSet fields "number_ambulatory" (String.mk (m.group 1))
    match alGet fields "number_patients" with
    | some ps =>
      let total := (pyInt ps).getD 0
      let ambulatory := (pyIntL (m.group 1)).getD 0
      alSet fields "number_litter" (String.mk (strOfInt (total - ambulatory)))
    | none => fields
  | none => fields

def equipment_keywords : List (String × List String) :=
  [("ventilator", ["ventilator", "vent", "breathing support"]),
   ("hoist", ["hoist", "winch", "cable"]),
   ("extraction", ["extraction equipment", "extraction"])]

/-- Python `', '.join`. -/
def joinCommaSpace : List (List Char) → List Char
  | [] => []
  | [x] => x
  | x :: rest => x ++ ',' :: ' ' :: joinCommaSpace rest

def fallbackEquipmentStep (t : List Char) (fields : FieldMap) : FieldMap :=
  let tl := lowerL t
  let equipment_found := equipment_keywords.filterMap (fun ek =>
    if ek.2.any (fun kw => pyIn kw.data tl) then some (capitalizeL ek.1.data) else none)
  if ¬ equipment_found.isEmpty then
    alSet fields "special_equipment" (String.mk (joinCommaSpace equipment_found))
  else fields

/-- The three `marking_patterns` of `extract_fields_with_fallback`;
`\w+` is the captured color. -/
def fallbackMarkingPats : List RE :=
  [seqList [altList [strCI "mark", strCI "marking", strCI "marked with"], plusR spaceR,
     .grp 1 (plusR (.cls isWordC)), plusR spaceR, strCI "smoke"],
   seqList [.grp 1 (plusR (.cls isWordC)), plusR spaceR, strCI "smoke", plusR spaceR,
     altList [strCI "when", strCI "on"]],
   seqList [altList [strCI "pop", strCI "throw", strCI "use"], plusR spaceR,
     .grp 1 (plusR (.cls isWordC)), plusR spaceR, strCI "smoke"]]

def fallbackMarkingStep (t : List Char) (fields : FieldMap) : FieldMap :=
  match firstSearch fallbackMarkingPats t with
  | some m =>
    alSet fields "method_of_marking" (String.mk (capitalizeL (m.group 1) ++ " smoke".data))
  | none => fields

def security_keywords : List (String × List String) :=
  [("N", ["no enemy", "cold", "secure", "clear"]),
   ("P", ["possible enemy", "unknown", "not sure"]),
   ("E", ["enemy", "hot", "troops", "contact"]),
   ("X", ["heavy", "need escort", "under fire"])]

def fallbackSecurityStep (t : List Char) (fields : FieldMap) : FieldMap :=
  let tl := lowerL t
  match security_keywords.find? (fun sk => sk.2.any (fun kw => pyIn kw.data tl)) with
  | some sk => alSet fields "security_at_pickup" sk.1
  | none => fields

/-- `extract_fields_with_fallback`: regex-based rule-layer extraction.  The
`report_type` parameter is unused in the source as well; the preprocessed
transcript is computed and discarded in the source as well. -/
def extract_fields_with_fallback (transcript : String) (report_type : String) : FieldMap :=
  let t := transcript.data
  let _processed := preprocess_military_transcript t
  fallbackSecurityStep t (fallbackMarkingStep t (fallbackEquipmentStep t
    (fallbackLitterStep t (fallbackPrecedenceStep t (fallbackPatientStep t
      (fallbackFreqStep t (fallbackGridStep t (fallbackCallsignStep t []))))))))

/-! ### `military_nlp.py`: merge of ML and fallback extraction -/

def example_contamination : List String :=
  ["RAZOR", "THUNDER", "18TWL", "purple smoke", "47.55"]

def isContaminated (v : String) : Bool :=
  example_contamination.any (fun ex => pyIn ex.data v.data)

/-- The value stored for one ML field by the first merge loop: a contaminated
value is replaced by a non-empty fallback value when one exists, and by the
empty string otherwise; a clean value is kept. -/
def mergeValue (ai_value : String) (fallback_fields : FieldMap) (field_id : String) : String :=
  if ai_value ≠ "" ∧ isContaminated ai_value then
    match alGet fallback_fields field_id with
    | some fv => if fv ≠ "" then fv else ""
    | none => ""
  else ai_value

def mergeLoop1 : FieldMap → FieldMap → FieldMap → FieldMap
  | merged, [], _ => merged
  | merged, (field_id, ai_value) :: rest, fallback_fields =>
    mergeLoop1 (alSet merged field_id (mergeValue ai_value fallback_fields field_id))
      rest fallback_fields

/-- Python `field_id not in merged or not merged[field_id]`. -/
def needsBackfill (merged : FieldMap) (field_id : String) : Bool :=
  match alGet merged field_id with
  | none => true
  | some v => v = ""

def mergeLoop2 : FieldMap → FieldMap → FieldMap
  | merged, [] => merged
  | merged, (field_id, fallback_value) :: rest =>
    mergeLoop2
      (if needsBackfill merged field_id then alSet merged field_id fallback_value else merged)
      rest

/-- `merge_extraction_results`: prefer ML values unless contaminated, then
backfill missing or empty fields from the fallback map.  The `transcript`
parameter is unused in the source as well. -/
def merge_extraction_results (ai_fields fallback_fields : FieldMap) (transcript : String) :
    FieldMap :=
  mergeLoop2 (mergeLoop1 [] ai_fields fallback_fields) fallback_fields

/-! ### `pytak_cot.py`: priority, CoT type, coordinates, event -/

def priority_fields : List String := ["priority", "precedence", "urgency", "patient_precedence"]

/-- One field value's priority keyword test, in source order: flash, then
immediate/urgent, then priority; `none` means no keyword and the loop falls
through to the next field. -/
def priorityTrigger (value : String) : Option String :=
  let v := lowerL value.data
  if pyIn "flash".data v then some "flash"
  else if pyIn "immediate".data v ∨ pyIn "urgent".data v then some "immediate"
  else if pyIn "priority".data v then some "priority"
  else none

def extractPriorityGo (report_data : FieldMap) : List String → String
  | [] => "routine"
  | field :: rest =>
    match alGet report_data field with
    | some value =>
      if value ≠ "" then
        match priorityTrigger value with
        | some r => r
        | none => extractPriorityGo report_data rest
      else extractPriorityGo report_data rest
    | none => extractPriorityGo report_data rest

/-- `extract_priority_from_data`. -/
def extract_priority_from_data (report_data : FieldMap) : String :=
  extractPriorityGo report_data priority_fields

/-- First (field, value) among `priority_fields` that is present, non-empty
and contains a priority keyword (a specification view of the loop, proved
equivalent below). -/
def firstTriggered (report_data : FieldMap) : List String → Option (String × String)
  | [] => none
  | field :: rest =>
    match alGet report_data field with
    | some value =>
      if value ≠ "" ∧ (priorityTrigger value).isSome then some (field, value)
      else firstTriggered report_data rest
    | none => firstTriggered report_data rest

structure CotTypeConfig where
  dflt : String
  priority_based : Option (List (String × String))
  all_clear : Option String

/-- `COT_TYPE_MAPPINGS`. -/
def COT_TYPE_MAPPINGS : List (String × CotTypeConfig) :=
  [("MEDEVAC",
    { dflt := "a-f-G-U-C-I-M-E",
      priority_based := some
        [("flash", "a-f-G-E-V-A-M"), ("immediate", "a-f-G-U-C-I-M-E"),
         ("priority", "a-f-G-U-C-I-M"), ("routine", "a-f-G-U-C-I")],
      all_clear := none }),
   ("CONTACTREP",
    { dflt := "a-h-G",
      priority_based := some
        [("immediate", "a-h-G-E-V-A"), ("priority", "a-h-G"), ("routine", "a-h-G")],
      all_clear := none }),
   ("SITREP",
    { dflt := "a-f-G-U-C", priority_based := none, all_clear := some "a-f-G-U-C-F" })]

/-- `determine_cot_type`. -/
def determine_cot_type (report_type : String) (report_data : FieldMap) : String :=
  match (COT_TYPE_MAPPINGS.find? (fun p => p.1 = report_type)) with
  | none => "a-f-G-U-C"
  | some (_, type_config) =>
    let priority := extract_priority_from_data report_data
    match type_config.priority_based with
    | some table =>
      match table.find? (fun p => p.1 = priority) with
      | some p => p.2
      | none => type_config.dflt
    | none => type_config.dflt

/-- Geodetic point: `lat`/`lon` in degrees, `hae`/`ce`/`le` in meters
(Python floats modelled as `ℚ`). -/
structure GeoPoint where
  lat : ℚ
  lon : ℚ
  hae : ℚ
  ce : ℚ
  le : ℚ
deriving DecidableEq

/-- The "unknown" sentinel point. -/
def sentinelPoint : GeoPoint := ⟨0, 0, 0, 9999999, 9999999⟩

/-- The two `mgrs_patterns` of `mgrs_to_decimal_degrees`
(`re.IGNORECASE`). -/
def mgrsPat1 : RE :=
  .seq (optR (seqList [strCI "grid", plusR spaceR]))
    (.grp 1 (seqList [repRange 1 2 digitR, repRange 1 3 (.cls isLetterC),
      repExact 2 (.cls isLetterC), plusR digitR]))

def mgrsPat2 : RE :=
  .seq (optR (seqList [strCI "grid", plusR spaceR]))
    (.grp 1 (seqList [repRange 1 2 digitR, starR spaceR, repRange 1 3 (.cls isLetterC),
      starR spaceR, repExact 2 (.cls isLetterC), starR spaceR,
      plusR (.cls (fun c => isDigitC c || isSpaceC c))]))

/-- The `mgrs_clean` candidate computed by `mgrs_to_decimal_degrees`: the two
pattern searches over the preprocessed text, then the comma/phonetic
fallback over the original text. -/
def mgrsCandidate (mgrs_string : String) : Option String :=
  let processed := preprocess_military_transcript mgrs_string.data
  match reSearch mgrsPat1 processed with
  | some m => some (String.mk (m.group 1))
  | none =>
    match reSearch mgrsPat2 processed with
    | some m => some (String.mk (m.group 1))
    | none =>
      if pyIn [','] mgrs_string.data ∨ (reSearch twoLettersPat mgrs_string.data).isSome then
        some (String.mk (process_grid_sequence mgrs_string.data))
      else none

/-- `mgrs_to_decimal_degrees`.  The third-party `mgrs.MGRS().toLatLon` is an
oracle parameter: `some (lat, lon)` for a successful conversion, `none` for a
raised exception.  An empty candidate is falsy in Python and skips the
conversion. -/
def mgrs_to_decimal_degrees (toLatLon : String → Option (ℚ × ℚ)) (mgrs_string : String) :
    GeoPoint :=
  match mgrsCandidate mgrs_string with
  | some mgrs_clean =>
    if mgrs_clean ≠ "" then
      match toLatLon (String.mk (removeSpacesL mgrs_clean.data)) with
      | some (lat, lon) => ⟨lat, lon, 0, 10, 10⟩
      | none => sentinelPoint
    else sentinelPoint
  | none => sentinelPoint

/-- The two `coord_patterns` of `extract_coordinates_from_location`. -/
def decimalPairPat1 : RE :=
  seqList [.grp 1 (seqList [optR (chr '-'), plusR digitR, optR (chr '.'), starR digitR]),
    plusR (.cls (fun c => c = ',' || isSpaceC c)),
    .grp 2 (seqList [optR (chr '-'), plusR digitR, optR (chr '.'), starR digitR])]

def decimalPairPat2 : RE :=
  seqList [strCI "lat", starR (.cls (fun c => c = ':' || isSpaceC c)),
    .grp 1 (seqList [optR (chr '-'), plusR digitR, optR (chr '.'), starR digitR]),
    starLazy dotR, strCI "lon", starR (.cls (fun c => c = ':' || isSpaceC c)),
    .grp 2 (seqList [optR (chr '-'), plusR digitR, optR (chr '.'), starR digitR])]

/-- The decimal lat/lon fallback of `extract_coordinates_from_location`:
first matching pattern, captures parsed as floats. -/
def decimalPairSearch (location_text : String) : Option (ℚ × ℚ) :=
  match firstSearch [decimalPairPat1, decimalPairPat2] location_text.data with
  | some m => some (parseFloatQ (m.group 1), parseFloatQ (m.group 2))
  | none => none

/-- `extract_coordinates_from_location`. -/
def extract_coordinates_from_location (toLatLon : String → Option (ℚ × ℚ))
    (location_text : String) : GeoPoint :=
  if location_text = "" then sentinelPoint
  else
    let coords := mgrs_to_decimal_degrees toLatLon location_text
    if coords.lat ≠ 0 ∨ coords.lon ≠ 0 then coords
    else
      match decimalPairSearch location_text with
      | some (lat, lon) => ⟨lat, lon, 0, 100, 100⟩
      | none => sentinelPoint

/-- `stale_hours.get(priority, 1)` (hours, Python floats as `ℚ`). -/
def staleHoursGet (priority : String) : ℚ :=
  if priority = "flash" then 1/2
  else if priority = "immediate" then 1
  else if priority = "priority" then 2
  else if priority = "routine" then 4
  else 1

/-- `int(stale_hours.get(priority, 1) * 3600)` (Python `int()` truncates
toward zero; all values here are positive). -/
def staleSeconds (priority : String) : ℤ := ⌊staleHoursGet priority * 3600⌋

def location_field_map : List (String × List String) :=
  [("MEDEVAC", ["location", "pickup_location", "line1_location", "grid"]),
   ("CONTACTREP", ["location", "enemy_location", "location_desc", "grid"]),
   ("SITREP", ["location", "current_location", "location_desc"]),
   ("SPOTREP", ["location_desc", "location"]),
   ("SALUTE", ["location_desc", "location"]),
   ("PATROLREP", ["location", "current_position"])]

def group_colors : List (String × String) :=
  [("MEDEVAC", "White"), ("CONTACTREP", "Red"), ("SITREP", "Blue"), ("SPOTREP", "Yellow")]

/-- First field of `fields` present in `report_data` with a truthy value. -/
def firstPresentField (report_data : FieldMap) : List String → Option String
  | [] => none
  | f :: rest =>
    match alGet report_data f with
    | some v => if v ≠ "" then some v else firstPresentField report_data rest
    | none => firstPresentField report_data rest

def medevacFieldMappings : List (String × String) :=
  [("location", "line1"), ("frequency", "line2"), ("number_patients", "line3_patients"),
   ("patient_precedence", "line3_precedence"), ("special_equipment", "line4"),
   ("number_litter", "line5_litter"), ("number_ambulatory", "line5_ambulatory"),
   ("security_at_pickup", "line6"), ("method_of_marking", "line7"),
   ("patient_nationality", "line8"), ("nbc_contamination", "line9")]

def contactrepDetailFields : List String :=
  ["enemy_size", "enemy_activity", "enemy_equipment", "friendly_status"]

/-- The CoT event as constructed by `create_cot_event`, with the XML
serialization left symbolic: all attributes and detail children are recorded.
Timestamps are instants in seconds (`pytak.cot_time n` renders `now + n`;
`time` and `start` use offset 0). -/
structure CotEvent where
  version : String
  cotType : String
  uid : String
  how : String
  time : ℕ
  start : ℕ
  stale : ℕ
  point : GeoPoint
  callsign : String
  groupName : String
  groupRole : String
  remarks : String
  detailFields : List (String × String)

/-- `create_cot_event`.  `toLatLon` is the geodetic oracle, `now` the clock
reading used for the three `pytak.cot_time` calls, `uid` the generated
unique id. -/
def create_cot_event (toLatLon : String → Option (ℚ × ℚ)) (now : ℕ) (uid : String)
    (report_type : String) (report_data : FieldMap) (reporting_unit : Option String) :
    CotEvent :=
  let priority := extract_priority_from_data report_data
  let stale_seconds := (staleSeconds priority).toNat
  let cot_type := determine_cot_type report_type report_data
  let location_fields :=
    match location_field_map.find? (fun p => p.1 = report_type) with
    | some p => p.2
    | none => ["location", "location_desc", "grid"]
  let location_text := firstPresentField report_data location_fields
  let coords :=
    match location_text with
    | some txt => extract_coordinates_from_location toLatLon txt
    | none => sentinelPoint
  let callsign :=
    match reporting_unit with
    | some r => if r ≠ "" then r else alGetD report_data "reporting_unit" "UNKNOWN"
    | none => alGetD report_data "reporting_unit" "UNKNOWN"
  let callsign :=
    if callsign = "UNKNOWN" then
      match firstPresentField report_data ["callsign", "unit", "from_unit"] with
      | some v => String.mk (upperL v.data)
      | none => callsign
    else callsign
  let remarks_text := String.mk (report_type.data ++ " from ".data ++ callsign.data)
  let remarks_text :=
    if priority = "flash" ∨ priority = "immediate" then
      String.mk ("**".data ++ upperL priority.data ++ "** ".data ++ remarks_text.data)
    else remarks_text
  let detail :=
    if report_type = "MEDEVAC" then
      medevacFieldMappings.filterMap (fun p =>
        match alGet report_data p.1 with
        | some v => if v ≠ "" then some (p.2, v) else none
        | none => none)
    else if report_type = "CONTACTREP" then
      contactrepDetailFields.filterMap (fun f =>
        match alGet report_data f with
        | some v => if v ≠ "" then some (f, v) else none
        | none => none)
    else []
  { version := "2.0", cotType := cot_type, uid := uid, how := "h-g-i-g-o",
    time := now, start := now, stale := now + stale_seconds, point := coords,
    callsign := callsign,
    groupName := (group_colors.find? (fun p => p.1 = report_type)).elim "Blue" Prod.snd,
    groupRole := "Team Member", remarks := remarks_text, detailFields := detail }

/-! ### Helper lemmas: association lists -/

theorem alGet_alSet_self (m : FieldMap) (k v : String) : alGet (alSet m k v) k = some v := by
  induction m with
  | nil => simp [alSet, alGet]
  | cons p rest ih =>
    obtain ⟨k1, v1⟩ := p
    by_cases h : k1 = k
    · simp [alSet, h, alGet]
    · simp [alSet, h, alGet, ih]

theorem alGet_alSet_ne (m : FieldMap) (k v : String) (k2 : String) (h : k2 ≠ k) :
    alGet (alSet m k v) k2 = alGet m k2 := by
  have hne : k ≠ k2 := Ne.symm h
  induction m with
  | nil => simp [alSet, alGet, hne]
  | cons p rest ih =>
    obtain ⟨k1, v1⟩ := p
    by_cases hp : k1 = k
    · subst hp
      simp [alSet, alGet, hne]
    · simp [alSet, hp, alGet, ih]

theorem hasKey_alSet (m : FieldMap) (k v : String) (k2 : String) (h : hasKey m k2 = true) :
    hasKey (alSet m k v) k2 = true := by
  by_cases hk : k2 = k
  · subst hk
    simp [hasKey, alGet_alSet_self]
  · simpa [hasKey, alGet_alSet_ne m k v k2 hk] using h

/-! ### Helper lemmas: the merge loops -/

theorem mergeLoop1_get_of_not_mem (ai : FieldMap) (merged fb : FieldMap) (k : String)
    (h : ∀ p ∈ ai, p.1 ≠ k) : alGet (mergeLoop1 merged ai fb) k = alGet merged k := by
  induction ai generalizing merged with
  | nil => rfl
  | cons p rest ih =>
    obtain ⟨k1, v1⟩ := p
    have hp : k ≠ k1 := Ne.symm (h (k1, v1) (by simp))
    have hrest : ∀ q ∈ rest, q.1 ≠ k := fun q hq => h q (by simp [hq])
    simp only [mergeLoop1]
    rw [ih _ hrest, alGet_alSet_ne _ _ _ _ hp]

theorem mergeLoop1_contaminated (ai : FieldMap) (merged fb : FieldMap) (k v w : String)
    (hnodup : (ai.map Prod.fst).Nodup) (hai : alGet ai k = some v) (hv : v ≠ "")
    (hcont : isContaminated v = true) (hfb : alGet fb k = some w) (hw : w ≠ "") :
    alGet (mergeLoop1 merged ai fb) k = some w := by
  induction ai generalizing merged with
  | nil => simp [alGet] at hai
  | cons p rest ih =>
    obtain ⟨k1, v1⟩ := p
    by_cases hk : k1 = k
    · subst hk
      have hv1 : v1 = v := by simpa [alGet] using hai
      subst hv1
      rw [List.map_cons, List.nodup_cons] at hnodup
      have hnotmem : ∀ q ∈ rest, q.1 ≠ k1 := by
        intro q hq he
        exact hnodup.1 (List.mem_map.mpr ⟨q, hq, he⟩)
      simp only [mergeLoop1]
      rw [mergeLoop1_get_of_not_mem rest _ fb k1 hnotmem]
      have hval : mergeValue v1 fb k1 = w := by
        simp [mergeValue, hv, hcont, hfb, hw]
      rw [hval]
      exact alGet_alSet_self merged k1 w
    · have hai2 : alGet rest k = some v := by simpa [alGet, hk] using hai
      rw [List.map_cons, List.nodup_cons] at hnodup
      simp only [mergeLoop1]
      exact ih _ hnodup.2 hai2

theorem mergeLoop2_stable (fb : FieldMap) (merged : FieldMap) (k w : String)
    (h : alGet merged k = some w) (hw : w ≠ "") :
    alGet (mergeLoop2 merged fb) k = some w := by
  induction fb generalizing merged with
  | nil => exact h
  | cons p rest ih =>
    obtain ⟨k1, f1⟩ := p
    simp only [mergeLoop2]
    by_cases hk : k1 = k
    · subst hk
      have hnb : ¬ needsBackfill merged k1 = true := by
        simp [needsBackfill, h, hw]
      rw [if_neg hnb]
      exact ih _ h
    · have hne : k ≠ k1 := Ne.symm hk
      by_cases hb : needsBackfill merged k1 = true
      · rw [if_pos hb]
        exact ih _ (by rw [alGet_alSet_ne _ _ _ _ hne]; exact h)
      · rw [if_neg hb]
        exact ih _ h

theorem mergeLoop1_hasKey_mono (ai : FieldMap) (merged fb : FieldMap) (k : String)
    (h : hasKey merged k = true) : hasKey (mergeLoop1 merged ai fb) k = true := by
  induction ai generalizing merged with
  | nil => exact h
  | cons p rest ih =>
    obtain ⟨k1, v1⟩ := p
    simp only [mergeLoop1]
    exact ih _ (hasKey_alSet _ _ _ _ h)

theorem mergeLoop1_hasKey_of_ai (ai : FieldMap) (merged fb : FieldMap) (k : String)
    (h : hasKey ai k = true) : hasKey (mergeLoop1 merged ai fb) k = true := by
  induction ai generalizing merged with
  | nil => simp [hasKey, alGet] at h
  | cons p rest ih =>
    obtain ⟨k1, v1⟩ := p
    by_cases hk : k1 = k
    · subst hk
      simp only [mergeLoop1]
      exact mergeLoop1_hasKey_mono rest _ fb k1
        (by simp [hasKey, alGet_alSet_self])
    · have h2 : hasKey rest k = true := by simpa [hasKey, alGet, hk] using h
      simp only [mergeLoop1]
      exact ih _ h2

theorem mergeLoop2_hasKey_mono (fb : FieldMap) (merged : FieldMap) (k : String)
    (h : hasKey merged k = true) : hasKey (mergeLoop2 merged fb) k = true := by
  induction fb generalizing merged with
  | nil => exact h
  | cons p rest ih =>
    obtain ⟨k1, f1⟩ := p
    simp only [mergeLoop2]
    by_cases hb : needsBackfill merged k1 = true
    · rw [if_pos hb]
      exact ih _ (hasKey_alSet _ _ _ _ h)
    · rw [if_neg hb]
      exact ih _ h

/-- Every key of the ML map survives the merge. -/
theorem merge_preserves_ai_keys (ai fb : FieldMap) (tr : String) (k : String)
    (h : hasKey ai k = true) : hasKey (merge_extraction_results ai fb tr) k = true :=
  mergeLoop2_hasKey_mono fb _ k (mergeLoop1_hasKey_of_ai ai [] fb k h)

/-! ### Claim C2 -/

/-- C2: for every field id present in the ML-extracted field map, if the ML
value contains a contamination token (`RAZOR`, `THUNDER`, `18TWL`,
`purple smoke`, `47.55`) as a substring and the rule-layer fallback map holds
a non-empty value for that field, then the merged map's value for that field
equals the fallback value, never the raw ML value. -/
theorem C2_merge_contamination_uses_fallback (ai fb : FieldMap) (tr k v w : String)
    (hnodup : (ai.map Prod.fst).Nodup)
    (hai : alGet ai k = some v)
    (hcont : isContaminated v = true)
    (hfb : alGet fb k = some w) (hw : w ≠ "") :
    alGet (merge_extraction_results ai fb tr) k = some w := by
  have hv : v ≠ "" := fun he => by
    rw [he] at hcont
    exact absurd hcont (by decide)
  exact mergeLoop2_stable fb _ k w
    (mergeLoop1_contaminated ai [] fb k v w hnodup hai hv hcont hfb hw) hw

/-- Witness for C2 at a concrete contaminated extraction. -/
theorem C2_merge_contamination_uses_fallback_witness :
    ([("reporting_unit", "RAZOR 3-1")].map Prod.fst).Nodup ∧
    alGet [("reporting_unit", "RAZOR 3-1")] "reporting_unit" = some "RAZOR 3-1" ∧
    isContaminated "RAZOR 3-1" = true ∧
    alGet [("reporting_unit", "WARHAWK 2-1")] "reporting_unit" = some "WARHAWK 2-1" ∧
    "WARHAWK 2-1" ≠ "" ∧
    alGet (merge_extraction_results [("reporting_unit", "RAZOR 3-1")]
      [("reporting_unit", "WARHAWK 2-1")] "t") "reporting_unit" = some "WARHAWK 2-1" :=
  ⟨by decide, by decide, by decide, by decide, by decide,
   C2_merge_contamination_uses_fallback [("reporting_unit", "RAZOR 3-1")]
     [("reporting_unit", "WARHAWK 2-1")] "t" "reporting_unit" "RAZOR 3-1" "WARHAWK 2-1"
     (by decide) (by decide) (by decide) (by decide) (by decide)⟩

/-! ### Claim C6 -/

/-- C6 counterexample: the claim as stated is false.  `MEDEVAC` has a
template declaring `pickup_location` as required, yet merging two maps that
both lack it (here two empty maps) yields a map without that key — the merge
never consults the template. -/
theorem C6_required_field_counterexample :
    (load_report_templates.lookup "MEDEVAC" = some medevacTemplate) ∧
    "pickup_location" ∈ requiredFieldIds medevacTemplate ∧
    merge_extraction_results [] [] "t" = [] ∧
    hasKey (merge_extraction_results [] [] "t") "pickup_location" = false :=
  ⟨by decide, by decide, rfl, by decide⟩

/-- C6 amended: the merged field map contains every required field id of the
report type's template **that the ML-extracted map already contains** (the ML
extractor backfills every template field id with an empty string before the
merge); the merge itself preserves every ML key but does not consult the
template. -/
theorem C6_required_fields_amended (rt : String) (tmpl : ReportTemplate)
    (ai fb : FieldMap) (tr f : String)
    (htmpl : load_report_templates.lookup rt = some tmpl)
    (hreq : f ∈ requiredFieldIds tmpl)
    (hai : hasKey ai f = true) :
    hasKey (merge_extraction_results ai fb tr) f = true :=
  merge_preserves_ai_keys ai fb tr f hai

/-- Witness for C6 at the MEDEVAC template. -/
theorem C6_required_fields_amended_witness :
    load_report_templates.lookup "MEDEVAC" = some medevacTemplate ∧
    "pickup_location" ∈ requiredFieldIds medevacTemplate ∧
    hasKey [("pickup_location", "35VNF61105197")] "pickup_location" = true ∧
    hasKey (merge_extraction_results [("pickup_location", "35VNF61105197")] [] "t")
      "pickup_location" = true :=
  ⟨by decide, by decide, by decide,
   C6_required_fields_amended "MEDEVAC" medevacTemplate
     [("pickup_location", "35VNF61105197")] [] "t" "pickup_location"
     (by decide) (by decide) (by decide)⟩

/-! ### Helper lemmas: priority extraction -/

theorem priorityTrigger_cases (v : String) :
    priorityTrigger v = none ∨ priorityTrigger v = some "flash" ∨
    priorityTrigger v = some "immediate" ∨ priorityTrigger v = some "priority" := by
  unfold priorityTrigger
  dsimp only
  split_ifs <;> simp

theorem extractPriorityGo_spec (data : FieldMap) (l : List String) :
    extractPriorityGo data l =
      match firstTriggered data l with
      | some p => (priorityTrigger p.2).getD "routine"
      | none => "routine" := by
  induction l with
  | nil => rfl
  | cons f rest ih =>
    simp only [extractPriorityGo, firstTriggered]
    cases halGet : alGet data f with
    | none => exact ih
    | some value =>
      by_cases hv : value = ""
      · simp [hv, ih]
      · cases ht : priorityTrigger value with
        | none => simp [hv, ht, ih]
        | some r => simp [hv, ht]

theorem extractPriorityGo_routine_of_empty (data : FieldMap) (l : List String)
    (h : ∀ g ∈ l, alGetD data g "" = "") : extractPriorityGo data l = "routine" := by
  induction l with
  | nil => rfl
  | cons f rest ih =>
    have hf := h f (by simp)
    have hrest : ∀ g ∈ rest, alGetD data g "" = "" := fun g hg => h g (by simp [hg])
    simp only [extractPriorityGo]
    cases halGet : alGet data f with
    | none => exact ih hrest
    | some value =>
      have hv : value = "" := by simpa [alGetD, halGet] using hf
      simp [hv, ih hrest]

theorem priorityTrigger_urgent_not_flash (v : String)
    (hu : pyIn "urgent".data (lowerL v.data) = true)
    (hf : pyIn "flash".data (lowerL v.data) = false) :
    priorityTrigger v = some "immediate" := by
  unfold priorityTrigger
  dsimp only
  rw [if_neg (by simp [hf]), if_pos (Or.inr hu)]

/-! ### Claim C10 -/

/-- C10 counterexample: a field value containing `urgent` does not always
yield `immediate` — a value also containing `flash` yields `flash`. -/
theorem C10_priority_counterexample :
    alGet [("priority", "flash urgent")] "priority" = some "flash urgent" ∧
    pyIn "urgent".data (lowerL "flash urgent".data) = true ∧
    extract_priority_from_data [("priority", "flash urgent")] = "flash" ∧
    extract_priority_from_data [("priority", "flash urgent")] ≠ "immediate" :=
  ⟨by decide, by decide, by decide, by decide⟩

/-- C10 amended: (a) the derived priority is always one of `flash`,
`immediate`, `priority`, `routine`; (b) it is `routine` whenever none of the
fields `priority`, `precedence`, `urgency`, `patient_precedence` is present
with a non-empty value; (c) when the first such field that is present,
non-empty and contains a priority keyword has a value containing `urgent`
but not `flash`, the result is `immediate`, never `priority` (the
urgent/immediate test precedes the priority test, but the flash test and
earlier fields are consulted first). -/
theorem C10_priority_amended (d1 d2 d3 : FieldMap) (f v : String) :
    (extract_priority_from_data d1 = "flash" ∨ extract_priority_from_data d1 = "immediate" ∨
      extract_priority_from_data d1 = "priority" ∨ extract_priority_from_data d1 = "routine") ∧
    ((∀ g ∈ priority_fields, alGetD d2 g "" = "") → extract_priority_from_data d2 = "routine") ∧
    (firstTriggered d3 priority_fields = some (f, v) →
      pyIn "urgent".data (lowerL v.data) = true →
      pyIn "flash".data (lowerL v.data) = false →
      extract_priority_from_data d3 = "immediate") := by
  refine ⟨?_, ?_, ?_⟩
  · unfold extract_priority_from_data
    rw [extractPriorityGo_spec]
    cases hft : firstTriggered d1 priority_fields with
    | none => simp
    | some p =>
      rcases priorityTrigger_cases p.2 with h | h | h | h <;> simp [h]
  · exact extractPriorityGo_routine_of_empty d2 priority_fields
  · intro hft hu hf
    unfold extract_priority_from_data
    rw [extractPriorityGo_spec, hft]
    simp [priorityTrigger_urgent_not_flash v hu hf]

/-- Witness for C10: `d2` with no priority fields derives `routine`; `d3`
whose first triggering field value is `1 urgent surgical` derives
`immediate`. -/
theorem C10_priority_amended_witness :
    ((∀ g ∈ priority_fields, alGetD ([] : FieldMap) g "" = "") ∧
      extract_priority_from_data [] = "routine") ∧
    (firstTriggered [("patient_precedence", "1 urgent surgical")] priority_fields =
        some ("patient_precedence", "1 urgent surgical") ∧
      pyIn "urgent".data (lowerL "1 urgent surgical".data) = true ∧
      pyIn "flash".data (lowerL "1 urgent surgical".data) = false ∧
      extract_priority_from_data [("patient_precedence", "1 urgent surgical")] = "immediate") :=
  ⟨⟨by decide,
    (C10_priority_amended [] [] [] "patient_precedence" "1 urgent surgical").2.1 (by decide)⟩,
   ⟨by decide, by decide, by decide,
    (C10_priority_amended [] [] [("patient_precedence", "1 urgent surgical")]
      "patient_precedence" "1 urgent surgical").2.2 (by decide) (by decide) (by decide)⟩⟩

/-! ### Helper lemmas: decimal rendering round-trips through parsing -/

theorem dChar_isDigit (d : ℕ) (h : d < 10) : isDigitC (dChar d) = true := by
  interval_cases d <;> decide

theorem dChar_toNat (d : ℕ) (h : d < 10) : (dChar d).toNat = 48 + d := by
  interval_cases d <;> decide

theorem digitsToNat_append_single (xs : List Char) (c : Char) :
    digitsToNat (xs ++ [c]) = digitsToNat xs * 10 + (c.toNat - 48) := by
  simp [digitsToNat, List.foldl_append]

theorem natToCharsFuel_spec (f : ℕ) : ∀ n, n < 10 ^ f → 0 < f →
    natToCharsFuel f n ≠ [] ∧ (natToCharsFuel f n).all isDigitC = true ∧
    digitsToNat (natToCharsFuel f n) = n := by
  induction f with
  | zero => intro n _ h0; omega
  | succ f ih =>
    intro n hn _
    by_cases hsmall : n < 10
    · refine ⟨by simp [natToCharsFuel, hsmall], ?_, ?_⟩
      · simp [natToCharsFuel, hsmall, dChar_isDigit n hsmall]
      · simp [natToCharsFuel, hsmall, digitsToNat, dChar_toNat n hsmall]
    · have hf : 0 < f := by
        rcases Nat.eq_zero_or_pos f with hf0 | hf0
        · subst hf0; simp at hn; omega
        · exact hf0
      have hdiv : n / 10 < 10 ^ f := by
        rw [Nat.div_lt_iff_lt_mul (by norm_num)]
        calc n < 10 ^ (f + 1) := hn
        _ = 10 ^ f * 10 := by ring
      obtain ⟨hne, hall, hval⟩ := ih (n / 10) hdiv hf
      have hmod : n % 10 < 10 := Nat.mod_lt n (by norm_num)
      refine ⟨by simp [natToCharsFuel, hsmall], ?_, ?_⟩
      · simp [natToCharsFuel, hsmall, List.all_append, hall, dChar_isDigit _ hmod]
      · simp only [natToCharsFuel, if_neg hsmall]
        rw [digitsToNat_append_single, hval, dChar_toNat _ hmod]
        omega

theorem strOfNat_spec (n : ℕ) :
    strOfNat n ≠ [] ∧ (strOfNat n).all isDigitC = true ∧ digitsToNat (strOfNat n) = n := by
  have hpow : n < 10 ^ (n + 1) := by
    calc n < 2 ^ n := Nat.lt_two_pow n
    _ ≤ 10 ^ n := Nat.pow_le_pow_left (by norm_num) n
    _ ≤ 10 ^ (n + 1) := Nat.pow_le_pow_right (by norm_num) (Nat.le_succ n)
  exact natToCharsFuel_spec (n + 1) n hpow (Nat.succ_pos n)

theorem parseNatL_strOfNat (n : ℕ) : parseNatL (strOfNat n) = some n := by
  obtain ⟨hne, hall, hval⟩ := strOfNat_spec n
  simp [parseNatL, hne, hall, hval]

theorem pyIntL_strOfInt (i : ℤ) : pyIntL (strOfInt i) = some i := by
  by_cases hneg : i < 0
  · simp only [strOfInt, if_pos hneg, pyIntL, reduceIte, parseNatL_strOfNat,
      Option.map_some', Option.some.injEq, Int.ofNat_eq_natCast]
    omega
  · simp only [strOfInt, if_neg hneg]
    obtain ⟨hne, hall, hval⟩ := strOfNat_spec i.toNat
    rcases hL : strOfNat i.toNat with _ | ⟨c, cs⟩
    · exact absurd hL hne
    · rw [hL] at hall hval
      have hc : isDigitC c = true := List.all_eq_true.mp hall c (by simp)
      have hcm : c ≠ '-' := fun he => by rw [he] at hc; exact absurd hc (by decide)
      have hcp : c ≠ '+' := fun he => by rw [he] at hc; exact absurd hc (by decide)
      have hparse : parseNatL (c :: cs) = some i.toNat := by
        simp [parseNatL, hall, hval]
      simp only [pyIntL, if_neg hcm, if_neg hcp, hparse, Option.map_some',
        Option.some.injEq, Int.ofNat_eq_natCast]
      omega

theorem pyInt_mk (l : List Char) : pyInt (String.mk l) = pyIntL l := rfl

/-! ### Helper lemmas: validation preserves the patient-count fields -/

theorem medevacPrecedenceRepair_get_ne (m : FieldMap) (k : String)
    (h : k ≠ "patient_precedence") :
    alGet (medevacPrecedenceRepair m) k = alGet m k := by
  unfold medevacPrecedenceRepair
  split_ifs <;> first
    | rfl
    | exact alGet_alSet_ne m _ _ k h

theorem validateGridField_get_ne (m : FieldMap) (field k : String) (h : k ≠ field) :
    alGet (validateGridField m field) k = alGet m k := by
  unfold validateGridField
  cases alGet m field with
  | none => rfl
  | some v =>
    dsimp only
    split_ifs <;> first
      | rfl
      | exact alGet_alSet_ne m _ _ k h

theorem universalValidations_get_ne (m : FieldMap) (k : String)
    (h1 : k ≠ "reporting_unit") (h2 : k ≠ "location") (h3 : k ≠ "grid")
    (h4 : k ≠ "pickup_location") :
    alGet (universalValidations m) k = alGet m k := by
  unfold universalValidations
  rw [validateGridField_get_ne _ _ _ h4, validateGridField_get_ne _ _ _ h3,
    validateGridField_get_ne _ _ _ h2]
  cases alGet m "reporting_unit" with
  | none => rfl
  | some v =>
    dsimp only
    split_ifs <;> first
      | rfl
      | exact alGet_alSet_ne m _ _ k h1

theorem pyIntGetD_congr (m1 m2 : FieldMap) (k : String) (h : alGet m1 k = alGet m2 k) :
    pyIntGetD m1 k = pyIntGetD m2 k := by
  unfold pyIntGetD
  rw [h]

theorem medevacCountsRepair_sums (m : FieldMap) (t l a : ℤ)
    (hp : pyIntGetD m "number_patients" = some t) (ht : 0 < t)
    (hl : pyIntGetD m "number_litter" = some l)
    (ha : pyIntGetD m "number_ambulatory" = some a) :
    (pyIntGetD (medevacCountsRepair m) "number_litter").isSome = true ∧
    (pyIntGetD (medevacCountsRepair m) "number_ambulatory").isSome = true ∧
    pyIntGetD (medevacCountsRepair m) "number_patients" = some t ∧
    (pyIntGetD (medevacCountsRepair m) "number_litter").getD 0 +
      (pyIntGetD (medevacCountsRepair m) "number_ambulatory").getD 0 = t := by
  unfold medevacCountsRepair
  rw [hp, hl, ha]
  dsimp only
  by_cases hcond : l + a ≠ t ∧ 0 < t
  · rw [if_pos hcond]
    have hsum : (medevacSplit t l a).1 + (medevacSplit t l a).2 = t := by
      unfold medevacSplit
      split_ifs <;> dsimp only <;> ring
    have hgetl :
        alGet (alSet (alSet m "number_litter" (String.mk (strOfInt (medevacSplit t l a).1)))
          "number_ambulatory" (String.mk (strOfInt (medevacSplit t l a).2))) "number_litter" =
          some (String.mk (strOfInt (medevacSplit t l a).1)) := by
      rw [alGet_alSet_ne _ _ _ _ (by decide), alGet_alSet_self]
    have hgeta :
        alGet (alSet (alSet m "number_litter" (String.mk (strOfInt (medevacSplit t l a).1)))
          "number_ambulatory" (String.mk (strOfInt (medevacSplit t l a).2)))
          "number_ambulatory" =
          some (String.mk (strOfInt (medevacSplit t l a).2)) := alGet_alSet_self _ _ _
    have hgetp :
        alGet (alSet (alSet m "number_litter" (String.mk (strOfInt (medevacSplit t l a).1)))
          "number_ambulatory" (String.mk (strOfInt (medevacSplit t l a).2)))
          "number_patients" = alGet m "number_patients" := by
      rw [alGet_alSet_ne _ _ _ _ (by decide), alGet_alSet_ne _ _ _ _ (by decide)]
    refine ⟨?_, ?_, ?_, ?_⟩
    · simp [pyIntGetD, hgetl, pyInt_mk, pyIntL_strOfInt]
    · simp [pyIntGetD, hgeta, pyInt_mk, pyIntL_strOfInt]
    · exact (pyIntGetD_congr _ _ _ hgetp).trans hp
    · simp [pyIntGetD, hgetl, hgeta, pyInt_mk, pyIntL_strOfInt, hsum]
  · rw [if_neg hcond]
    have hla : l + a = t := by
      rcases Decidable.not_and_iff_or_not.mp hcond with hne | hpos
      · exact Decidable.not_not.mp hne
      · exact absurd ht hpos
    rw [hl, ha, hp]
    exact ⟨rfl, rfl, rfl, by simpa using hla⟩

/-! ### Claim C3 -/

/-- C3 counterexample: the claim as stated is false.  With
`number_patients = "3"` (a positive integer) but `number_litter = ""`,
Python's `int("")` raises `ValueError`, the repair is skipped, and the
returned map still carries the unparseable empty string for
`number_litter` — no integer values summing to 3 exist. -/
theorem C3_patient_counts_counterexample :
    validate_military_extraction "MEDEVAC"
      [("number_patients", "3"), ("number_litter", ""), ("number_ambulatory", "")] =
      [("number_patients", "3"), ("number_litter", ""), ("number_ambulatory", "")] ∧
    pyInt "3" = some 3 ∧ (0 : ℤ) < 3 ∧
    alGet (validate_military_extraction "MEDEVAC"
      [("number_patients", "3"), ("number_litter", ""), ("number_ambulatory", "")])
      "number_litter" = some "" ∧
    pyInt "" = none :=
  ⟨by decide, by decide, by decide, by decide, by decide⟩

/-- C3 amended: for every MEDEVAC field map whose `number_patients` parses as
a positive integer **and whose `number_litter` and `number_ambulatory`
entries each parse as an integer (an absent entry counts as the integer 0)**,
the validated map's litter and ambulatory integer values sum to the patient
total.  (When a present value fails to parse, the repair's `int()` raises and
the `except` clause leaves the map unrepaired.) -/
theorem C3_patient_counts_amended (fields : FieldMap) (t l a : ℤ)
    (hp : pyIntGetD fields "number_patients" = some t) (ht : 0 < t)
    (hl : pyIntGetD fields "number_litter" = some l)
    (ha : pyIntGetD fields "number_ambulatory" = some a) :
    (pyIntGetD (validate_military_extraction "MEDEVAC" fields) "number_litter").isSome = true ∧
    (pyIntGetD (validate_military_extraction "MEDEVAC" fields)
      "number_ambulatory").isSome = true ∧
    pyIntGetD (validate_military_extraction "MEDEVAC" fields) "number_patients" = some t ∧
    (pyIntGetD (validate_military_extraction "MEDEVAC" fields) "number_litter").getD 0 +
      (pyIntGetD (validate_military_extraction "MEDEVAC" fields)
        "number_ambulatory").getD 0 = t := by
  have hstep : validate_military_extraction "MEDEVAC" fields =
      universalValidations (medevacCountsRepair (medevacPrecedenceRepair fields)) := by
    unfold validate_military_extraction
    rw [if_pos rfl]
  have hp1 : pyIntGetD (medevacPrecedenceRepair fields) "number_patients" = some t :=
    (pyIntGetD_congr _ _ _ (medevacPrecedenceRepair_get_ne fields _ (by decide))).trans hp
  have hl1 : pyIntGetD (medevacPrecedenceRepair fields) "number_litter" = some l :=
    (pyIntGetD_congr _ _ _ (medevacPrecedenceRepair_get_ne fields _ (by decide))).trans hl
  have ha1 : pyIntGetD (medevacPrecedenceRepair fields) "number_ambulatory" = some a :=
    (pyIntGetD_congr _ _ _ (medevacPrecedenceRepair_get_ne fields _ (by decide))).trans ha
  obtain ⟨c1, c2, c3, c4⟩ :=
    medevacCountsRepair_sums (medevacPrecedenceRepair fields) t l a hp1 ht hl1 ha1
  have hu : ∀ k2, k2 = "number_litter" ∨ k2 = "number_ambulatory" ∨ k2 = "number_patients" →
      pyIntGetD (universalValidations (medevacCountsRepair (medevacPrecedenceRepair fields)))
        k2 = pyIntGetD (medevacCountsRepair (medevacPrecedenceRepair fields)) k2 := by
    intro k2 hk2
    apply pyIntGetD_congr
    apply universalValidations_get_ne
    all_goals rcases hk2 with h | h | h <;> (subst h; decide)
  rw [hstep, hu _ (Or.inl rfl), hu _ (Or.inr (Or.inl rfl)), hu _ (Or.inr (Or.inr rfl))]
  exact ⟨c1, c2, c3, c4⟩

/-- Witness for C3 at a map with three patients and no litter/ambulatory
entries (both count as 0, so the default split 1 + 2 = 3 is applied). -/
theorem C3_patient_counts_amended_witness :
    pyIntGetD [("number_patients", "3")] "number_patients" = some 3 ∧ (0 : ℤ) < 3 ∧
    pyIntGetD [("number_patients", "3")] "number_litter" = some 0 ∧
    pyIntGetD [("number_patients", "3")] "number_ambulatory" = some 0 ∧
    (pyIntGetD (validate_military_extraction "MEDEVAC" [("number_patients", "3")])
        "number_litter").getD 0 +
      (pyIntGetD (validate_military_extraction "MEDEVAC" [("number_patients", "3")])
        "number_ambulatory").getD 0 = 3 :=
  ⟨by decide, by decide, by decide, by decide,
   (C3_patient_counts_amended [("number_patients", "3")] 3 0 0
     (by decide) (by decide) (by decide) (by decide)).2.2.2⟩

/-! ### Helper lemmas: the staleness table -/

theorem extract_priority_mem (data : FieldMap) :
    extract_priority_from_data data = "flash" ∨ extract_priority_from_data data = "immediate" ∨
    extract_priority_from_data data = "priority" ∨
    extract_priority_from_data data = "routine" := by
  unfold extract_priority_from_data
  rw [extractPriorityGo_spec]
  cases hft : firstTriggered data priority_fields with
  | none => simp
  | some p =>
    rcases priorityTrigger_cases p.2 with h | h | h | h <;> simp [h]

theorem staleSeconds_flash : staleSeconds "flash" = 1800 := by
  unfold staleSeconds staleHoursGet
  norm_num

theorem staleSeconds_immediate : staleSeconds "immediate" = 3600 := by
  unfold staleSeconds staleHoursGet
  rw [if_neg (by decide), if_pos rfl]
  norm_num

theorem staleSeconds_priority : staleSeconds "priority" = 7200 := by
  unfold staleSeconds staleHoursGet
  rw [if_neg (by decide), if_neg (by decide), if_pos rfl]
  norm_num

theorem staleSeconds_routine : staleSeconds "routine" = 14400 := by
  unfold staleSeconds staleHoursGet
  rw [if_neg (by decide), if_neg (by decide), if_neg (by decide), if_pos rfl]
  norm_num

/-! ### Claim C9 -/

/-- C9: a CoT event's `time` and `start` both equal the encoding-time `now`,
and `stale` is `now` plus the priority-dependent window: flash = 30 min,
immediate = 60 min, priority = 120 min, routine = 240 min.  In particular a
`SITREP` whose data derives priority `routine` (e.g. an empty field map) has
`stale` exactly 4 hours after `time`. -/
theorem C9_stale_window (toLatLon : String → Option (ℚ × ℚ)) (now : ℕ) (uid : String)
    (report_type : String) (report_data : FieldMap) (reporting_unit : Option String) :
    (create_cot_event toLatLon now uid report_type report_data reporting_unit).time = now ∧
    (create_cot_event toLatLon now uid report_type report_data reporting_unit).start = now ∧
    (create_cot_event toLatLon now uid report_type report_data reporting_unit).stale =
      now +
        (if extract_priority_from_data report_data = "flash" then 30 * 60
         else if extract_priority_from_data report_data = "immediate" then 60 * 60
         else if extract_priority_from_data report_data = "priority" then 120 * 60
         else 240 * 60) ∧
    extract_priority_from_data ([] : FieldMap) = "routine" ∧
    (create_cot_event toLatLon now uid "SITREP" [] none).stale =
      (create_cot_event toLatLon now uid "SITREP" [] none).time + 240 * 60 := by
  refine ⟨rfl, rfl, ?_, by decide, ?_⟩
  · show now + (staleSeconds (extract_priority_from_data report_data)).toNat = _
    rcases extract_priority_mem report_data with h | h | h | h <;>
      rw [h] <;>
      simp [staleSeconds_flash, staleSeconds_immediate, staleSeconds_priority,
        staleSeconds_routine]
  · show now + (staleSeconds (extract_priority_from_data ([] : FieldMap))).toNat = now + 240 * 60
    have h : extract_priority_from_data ([] : FieldMap) = "routine" := by decide
    rw [h, staleSeconds_routine]
    rfl

/-! ### Helper lemmas: classifier score bounds -/

theorem indicator_weight_nonneg (ri : String × Indicators)
    (h : ri ∈ REPORT_TYPE_INDICATORS) : 0 ≤ ri.2.weight := by
  fin_cases h <;> norm_num

theorem classifierScore_nonneg (tl : List Char) (ind : Indicators)
    (hw : 0 ≤ ind.weight) : 0 ≤ classifierScore tl ind := by
  unfold classifierScore
  dsimp only
  split_ifs with h
  · apply div_nonneg
    · apply add_nonneg
      · exact mul_nonneg (Nat.cast_nonneg _) hw
      · exact mul_nonneg (Nat.cast_nonneg _) (by norm_num)
    · exact Nat.cast_nonneg _
  · exact le_refl 0

theorem classifierScores_nonneg (tl : List Char) (keys : List String)
    (p : String × ℚ) (hp : p ∈ classifierScores tl keys) : 0 ≤ p.2 := by
  obtain ⟨ri, hri, heq⟩ := List.mem_filterMap.mp hp
  split_ifs at heq with hc
  rw [Option.some.injEq] at heq
  rw [← heq]
  exact classifierScore_nonneg tl ri.2 (indicator_weight_nonneg ri hri)

theorem bestScore_nonneg (rest : List (String × ℚ)) (s0 : String × ℚ)
    (h0 : 0 ≤ s0.2) (hrest : ∀ p ∈ rest, 0 ≤ p.2) : 0 ≤ (bestScore rest s0).2 := by
  induction rest generalizing s0 with
  | nil => exact h0
  | cons p rest ih =>
    have hp : 0 ≤ p.2 := hrest p (by simp)
    have hrest2 : ∀ q ∈ rest, 0 ≤ q.2 := fun q hq => hrest q (by simp [hq])
    unfold bestScore
    simp only [List.foldl_cons]
    by_cases hlt : s0.2 < p.2
    · rw [if_pos hlt]
      exact ih p hp hrest2
    · rw [if_neg hlt]
      exact ih s0 h0 hrest2

theorem classifierScore_eq_zero (tl : List Char) (ind : Indicators)
    (h : ∀ kw ∈ ind.keywords, pyIn kw.data tl = false) :
    classifierScore tl ind = 0 := by
  unfold classifierScore
  dsimp only
  have hc : ind.keywords.countP (fun kw => pyIn kw.data tl) = 0 := by
    rw [List.countP_eq_zero]
    intro kw hkw
    simp [h kw hkw]
  rw [hc]
  simp

/-- With the default template table every indicator type has a template, so
the `scores` dict lists all five indicator types in table order. -/
theorem classifierScores_default (tl : List Char) :
    classifierScores tl (load_report_templates.map Prod.fst) =
      REPORT_TYPE_INDICATORS.map (fun ri => (ri.1, classifierScore tl ri.2)) := rfl

theorem classifierScores_zeros (tl : List Char)
    (h : ∀ ri ∈ REPORT_TYPE_INDICATORS, ∀ kw ∈ ri.2.keywords, pyIn kw.data tl = false) :
    classifierScores tl (load_report_templates.map Prod.fst) =
      [("CONTACTREP", 0), ("MEDEVAC", 0), ("SITREP", 0), ("SPOTREP", 0), ("SALUTE", 0)] := by
  rw [classifierScores_default]
  have hmap : REPORT_TYPE_INDICATORS.map (fun ri => (ri.1, classifierScore tl ri.2)) =
      REPORT_TYPE_INDICATORS.map (fun ri => (ri.1, (0 : ℚ))) := by
    apply List.map_congr_left
    intro ri hri
    rw [classifierScore_eq_zero tl ri.2 (fun kw hkw => h ri hri kw hkw)]
  rw [hmap]
  rfl

/-- Evaluation of the classifier on the empty transcript (shared by the C4
counterexample and the amended C4 theorem). -/
theorem classifier_empty_eval :
    determine_report_type_enhanced "" load_report_templates = ("CONTACTREP", 0) := by
  have hscores : classifierScores (lowerL "".data) (load_report_templates.map Prod.fst) =
      [("CONTACTREP", 0), ("MEDEVAC", 0), ("SITREP", 0), ("SPOTREP", 0), ("SALUTE", 0)] :=
    rfl
  unfold determine_report_type_enhanced
  dsimp only
  rw [hscores]
  have hbest : bestScore [("MEDEVAC", 0), ("SITREP", 0), ("SPOTREP", 0), ("SALUTE", 0)]
      ("CONTACTREP", (0 : ℚ)) = ("CONTACTREP", 0) := by
    unfold bestScore
    norm_num
  dsimp only
  rw [hbest]
  have hconf : min ((0 : ℚ) / 2) 1 = 0 := by norm_num
  rw [hconf]
  rw [if_pos (by norm_num : (0 : ℚ) < 3/10)]
  have hfind : load_report_templates.find?
      (fun tp => pyIn (lowerL tp.1.data) (lowerL "".data)) = none := by decide
  rw [hfind]

/-! ### Claim C4 -/

/-- C4 counterexample: with the default template table, classifying a
transcript in which no keyword matches — in particular the empty string —
returns `("CONTACTREP", 0.0)`, not `("SITREP", 0.3)`: the scores dict is
non-empty (all five indicator types have templates), so the
`("SITREP", 0.3)` branch is unreachable and the arg-max falls to the first
table entry with score 0. -/
theorem C4_classifier_counterexample :
    determine_report_type_enhanced "" load_report_templates = ("CONTACTREP", 0) ∧
    ("CONTACTREP", (0 : ℚ)) ≠ ("SITREP", (3/10 : ℚ)) := by
  refine ⟨classifier_empty_eval, ?_⟩
  intro h
  exact absurd (congrArg Prod.fst h) (by decide)

/-- C4 amended: for every transcript classified against the default template
table the confidence lies in `[0, 1]`. For a transcript in which no indicator
keyword of any report type occurs — in particular the empty string — every
score is `0`, the confidence `0` falls below the `0.3` cutoff, and the
report-type-literal fallback decides the result: the first template whose
lowercased type name occurs in the lowercased transcript is returned with
confidence `0.8`, and if no type name occurs the arg-max branch returns the
first table entry `("CONTACTREP", 0.0)`. The `("SITREP", 0.3)` default is
returned only when the template table shares no report type with the
indicator table, which never happens with the default table. -/
theorem C4_classifier_amended :
    (∀ transcript : String,
      0 ≤ (determine_report_type_enhanced transcript load_report_templates).2 ∧
      (determine_report_type_enhanced transcript load_report_templates).2 ≤ 1) ∧
    (∀ transcript : String,
      (∀ ri ∈ REPORT_TYPE_INDICATORS, ∀ kw ∈ ri.2.keywords,
        pyIn kw.data (lowerL transcript.data) = false) →
      determine_report_type_enhanced transcript load_report_templates =
        match load_report_templates.find?
            (fun tp => pyIn (lowerL tp.1.data) (lowerL transcript.data)) with
        | some tp => (tp.1, 4/5)
        | none => ("CONTACTREP", 0)) := by
  constructor
  · intro transcript
    unfold determine_report_type_enhanced
    dsimp only
    cases hs : classifierScores (lowerL transcript.data) (load_report_templates.map Prod.fst) with
    | nil => constructor <;> norm_num
    | cons s0 rest =>
      have h0 : 0 ≤ s0.2 :=
        classifierScores_nonneg _ _ s0 (by rw [hs]; exact List.mem_cons_self s0 rest)
      have hrest : ∀ p ∈ rest, 0 ≤ p.2 := fun p hp =>
        classifierScores_nonneg _ _ p (by rw [hs]; exact List.mem_cons_of_mem s0 hp)
      have hb : 0 ≤ (bestScore rest s0).2 := bestScore_nonneg rest s0 h0 hrest
      have hconf0 : 0 ≤ min ((bestScore rest s0).2 / 2) 1 :=
        le_min (div_nonneg hb (by norm_num)) (by norm_num)
      have hconf1 : min ((bestScore rest s0).2 / 2) 1 ≤ 1 := min_le_right _ _
      dsimp only
      split_ifs with hlt
      · cases hfind : load_report_templates.find?
            (fun tp => pyIn (lowerL tp.1.data) (lowerL transcript.data)) with
        | none => exact ⟨hconf0, hconf1⟩
        | some tp => constructor <;> norm_num
      · exact ⟨hconf0, hconf1⟩
  · intro transcript hnokw
    unfold determine_report_type_enhanced
    dsimp only
    rw [classifierScores_zeros (lowerL transcript.data) hnokw]
    have hbest : bestScore [("MEDEVAC", 0), ("SITREP", 0), ("SPOTREP", 0), ("SALUTE", 0)]
        ("CONTACTREP", (0 : ℚ)) = ("CONTACTREP", 0) := by
      unfold bestScore
      norm_num
    dsimp only
    rw [hbest]
    have hconf : min ((0 : ℚ) / 2) 1 = 0 := by norm_num
    rw [hconf]
    rw [if_pos (by norm_num : (0 : ℚ) < 3/10)]

/-- Witness for the amended C4 at `"salute"`: no indicator keyword occurs in
it, yet the literal fallback fires and returns `("SALUTE", 0.8)`. -/
theorem C4_classifier_amended_witness :
    (0 ≤ (determine_report_type_enhanced "salute" load_report_templates).2 ∧
      (determine_report_type_enhanced "salute" load_report_templates).2 ≤ 1) ∧
    determine_report_type_enhanced "salute" load_report_templates = ("SALUTE", 4/5) := by
  refine ⟨C4_classifier_amended.1 "salute", ?_⟩
  have h := C4_classifier_amended.2 "salute" (by decide)
  rw [h]
  have hfind : load_report_templates.find?
      (fun tp => pyIn (lowerL tp.1.data) (lowerL "salute".data)) =
      some ("SALUTE", saluteTemplate) := by decide
  rw [hfind]

/-! ### Claim C1 -/

/-- The transcript of end-to-end scenario 1. -/
def scenario1Transcript : String :=
  "WARHAWK 2-1, requesting medevac, grid 35VNF61105197, freq 124.5, 3 down, 1 urgent surgical, 2 can walk, purple smoke"

/-- C1: evaluation of the rule-layer extraction at the scenario-1 transcript.
The code produces `location = ""` (the grid capture carries a trailing
comma, so `process_grid_sequence` drops the alphanumeric block),
`frequency = "124.53"` (the greedy capture swallows the following `3` and
the comma-join concatenates it), `number_patients = "1"` (no pattern covers
`3 down`; the `urgent surgical` count wins), `number_litter = "-1"`
(1 patient minus 2 ambulatory), and no `reporting_unit` (no callsign pattern
matches `WARHAWK 2-1` with its hyphen) and no `method_of_marking` (no
pattern covers a trailing `purple smoke`) — far from the specified
scenario-1 outputs. -/
theorem C1_scenario1_rule_layer_eval :
    extract_fields_with_fallback scenario1Transcript "MEDEVAC" =
      [("location", ""), ("frequency", "124.53"), ("number_patients", "1"),
       ("patient_precedence", "1 urgent surgical"), ("number_ambulatory", "2"),
       ("number_litter", "-1")] ∧
    extract_callsign_from_transcript scenario1Transcript = none :=
  ⟨by decide, by decide⟩

/-! ### Claim C7 -/

/-- C7 counterexample: the claim as stated is false.  The input `one, two`
contains no comma-separated digit run (the frequency pattern finds no
match), yet the normalizer is not idempotent on it: the phonetic stage
produces `1, 2`, which the frequency stage of a second pass collapses to
`12`. -/
theorem C7_idempotence_counterexample :
    reSearch freqRunPat "one, two".data = none ∧
    preprocess_military_transcript "one, two".data = "1, 2".data ∧
    preprocess_military_transcript (preprocess_military_transcript "one, two".data) =
      "12".data ∧
    preprocess_military_transcript (preprocess_military_transcript "one, two".data) ≠
      preprocess_military_transcript "one, two".data :=
  ⟨by decide, by decide, by decide, by decide⟩

/-- C7 amended: the normalizer is idempotent on every input that each of its
three stages (comma-digit-run merging, grid splicing, phonetic substitution)
leaves unchanged.  Freedom from comma-digit runs alone is not sufficient:
the phonetic stage can create a fresh comma-digit run (`one, two` → `1, 2` →
`12`) and the grid stage can fire on phonetic output of a first pass. -/
theorem C7_idempotence_amended (x : List Char)
    (hf : preprocessFreqStage x = x) (hg : preprocessGridStage x = x)
    (hp : convert_phonetic_to_standard x = x) :
    preprocess_military_transcript (preprocess_military_transcript x) =
      preprocess_military_transcript x := by
  unfold preprocess_military_transcript
  rw [hf, hg, hp, hf, hg, hp]

/-- Witness for C7 at an input fixed by all three stages. -/
theorem C7_idempotence_amended_witness :
    preprocessFreqStage "hello".data = "hello".data ∧
    preprocessGridStage "hello".data = "hello".data ∧
    convert_phonetic_to_standard "hello".data = "hello".data ∧
    preprocess_military_transcript (preprocess_military_transcript "hello".data) =
      preprocess_military_transcript "hello".data :=
  ⟨by decide, by decide, by decide,
   C7_idempotence_amended "hello".data (by decide) (by decide) (by decide)⟩

/-! ### Claim C8 -/

/-- C8 counterexample: the claim as stated is false.  On
`2 wounded, 3 can walk` the rule layer finds the total 2 and the ambulatory
count 3, and emits `number_litter = "-1"` — a negative value, rather than
leaving the field unset. -/
theorem C8_negative_litter_counterexample :
    alGet (extract_fields_with_fallback "2 wounded, 3 can walk" "MEDEVAC")
      "number_patients" = some "2" ∧
    alGet (extract_fields_with_fallback "2 wounded, 3 can walk" "MEDEVAC")
      "number_ambulatory" = some "3" ∧
    alGet (extract_fields_with_fallback "2 wounded, 3 can walk" "MEDEVAC")
      "number_litter" = some "-1" ∧
    pyInt "-1" = some (-1) ∧ (-1 : ℤ) < 0 :=
  ⟨by decide, by decide, by decide, by decide, by decide⟩

/-! ### Helper lemmas: the fallback-extraction steps -/

theorem fallbackEquipmentStep_get_ne (t : List Char) (m : FieldMap) (k : String)
    (h : k ≠ "special_equipment") : alGet (fallbackEquipmentStep t m) k = alGet m k := by
  unfold fallbackEquipmentStep
  dsimp only
  split_ifs
  · rfl
  · exact alGet_alSet_ne m _ _ k h

theorem fallbackMarkingStep_get_ne (t : List Char) (m : FieldMap) (k : String)
    (h : k ≠ "method_of_marking") : alGet (fallbackMarkingStep t m) k = alGet m k := by
  unfold fallbackMarkingStep
  cases firstSearch fallbackMarkingPats t with
  | none => rfl
  | some mr => exact alGet_alSet_ne m _ _ k h

theorem fallbackSecurityStep_get_ne (t : List Char) (m : FieldMap) (k : String)
    (h : k ≠ "security_at_pickup") : alGet (fallbackSecurityStep t m) k = alGet m k := by
  unfold fallbackSecurityStep
  dsimp only
  cases security_keywords.find? (fun sk => sk.2.any (fun kw => pyIn kw.data (lowerL t))) with
  | none => rfl
  | some sk => exact alGet_alSet_ne m _ _ k h

theorem fallbackPrecedenceStep_get_ne (t : List Char) (m : FieldMap) (k : String)
    (h : k ≠ "patient_precedence") : alGet (fallbackPrecedenceStep t m) k = alGet m k := by
  unfold fallbackPrecedenceStep
  split_ifs
  · cases reSearch urgentSurgicalPat t with
    | none => rfl
    | some mr => exact alGet_alSet_ne m _ _ k h
  · rfl

theorem fallbackPatientStep_eq (t : List Char) (m : FieldMap) (mp : MatchRes)
    (h : firstSearch fallbackPatientPats t = some mp) :
    fallbackPatientStep t m = alSet m "number_patients" (String.mk (mp.group 1)) := by
  unfold fallbackPatientStep
  rw [h]

theorem fallbackLitterStep_eq (t : List Char) (m : FieldMap) (ma : MatchRes) (ps : String)
    (hma : reSearch ambulatoryPat t = some ma)
    (hnp : alGet m "number_patients" = some ps) :
    fallbackLitterStep t m =
      alSet (alSet m "number_ambulatory" (String.mk (ma.group 1))) "number_litter"
        (String.mk (strOfInt ((pyInt ps).getD 0 - (pyIntL (ma.group 1)).getD 0))) := by
  unfold fallbackLitterStep
  rw [hma]
  dsimp only
  rw [alGet_alSet_ne m _ _ _ (by decide), hnp]

/-! ### Claim C8 -/

/-- C8 amended: whenever the rule layer finds both a total patient count and
an explicit ambulatory count, it emits
`number_litter = str(total - ambulatory)` unconditionally — a value that is
negative when the ambulatory count exceeds the total (there is no
negativity guard and the field is never left unset). -/
theorem C8_litter_amended (transcript rt : String) (mp ma : MatchRes) (t a : ℤ)
    (hpat : firstSearch fallbackPatientPats transcript.data = some mp)
    (hamb : reSearch ambulatoryPat transcript.data = some ma)
    (hti : pyIntL (mp.group 1) = some t)
    (hai : pyIntL (ma.group 1) = some a) :
    alGet (extract_fields_with_fallback transcript rt) "number_litter" =
      some (String.mk (strOfInt (t - a))) ∧
    alGet (extract_fields_with_fallback transcript rt) "number_ambulatory" =
      some (String.mk (ma.group 1)) := by
  unfold extract_fields_with_fallback
  dsimp only
  rw [fallbackPatientStep_eq transcript.data _ mp hpat]
  have hnp : alGet (fallbackPrecedenceStep transcript.data
      (alSet (fallbackFreqStep transcript.data (fallbackGridStep transcript.data
        (fallbackCallsignStep transcript.data []))) "number_patients"
        (String.mk (mp.group 1)))) "number_patients" = some (String.mk (mp.group 1)) := by
    rw [fallbackPrecedenceStep_get_ne _ _ _ (by decide), alGet_alSet_self]
  rw [fallbackLitterStep_eq transcript.data _ ma (String.mk (mp.group 1)) hamb hnp]
  rw [pyInt_mk, hti, hai]
  simp only [Option.getD_some]
  constructor
  · rw [fallbackSecurityStep_get_ne _ _ _ (by decide),
      fallbackMarkingStep_get_ne _ _ _ (by decide),
      fallbackEquipmentStep_get_ne _ _ _ (by decide), alGet_alSet_self]
  · rw [fallbackSecurityStep_get_ne _ _ _ (by decide),
      fallbackMarkingStep_get_ne _ _ _ (by decide),
      fallbackEquipmentStep_get_ne _ _ _ (by decide),
      alGet_alSet_ne _ _ _ _ (by decide), alGet_alSet_self]

/-- Witness for C8 at `5 casualties, 2 can walk` (litter 5 − 2 = 3). -/
theorem C8_litter_amended_witness :
    firstSearch fallbackPatientPats "5 casualties, 2 can walk".data =
      some ⟨"".data, "5 casualties".data, [(1, "5".data)], ", 2 can walk".data⟩ ∧
    reSearch ambulatoryPat "5 casualties, 2 can walk".data =
      some ⟨"5 casualties, ".data, "2 can walk".data, [(1, "2".data)], "".data⟩ ∧
    pyIntL ("5".data) = some 5 ∧ pyIntL ("2".data) = some 2 ∧
    alGet (extract_fields_with_fallback "5 casualties, 2 can walk" "MEDEVAC")
      "number_litter" = some (String.mk (strOfInt (5 - 2))) :=
  ⟨by decide, by decide, by decide, by decide,
   (C8_litter_amended "5 casualties, 2 can walk" "MEDEVAC"
     ⟨"".data, "5 casualties".data, [(1, "5".data)], ", 2 can walk".data⟩
     ⟨"5 casualties, ".data, "2 can walk".data, [(1, "2".data)], "".data⟩ 5 2
     (by decide) (by decide) (by decide) (by decide)).1⟩

/-! ### Helper lemmas: coordinate resolution -/

theorem mgrs_shape (o : String → Option (ℚ × ℚ)) (s : String) :
    mgrs_to_decimal_degrees o s = sentinelPoint ∨
    ∃ g la lo, mgrsCandidate s = some g ∧ g ≠ "" ∧
      o (String.mk (removeSpacesL g.data)) = some (la, lo) ∧
      mgrs_to_decimal_degrees o s = ⟨la, lo, 0, 10, 10⟩ := by
  unfold mgrs_to_decimal_degrees
  cases hc : mgrsCandidate s with
  | none => exact Or.inl rfl
  | some g =>
    dsimp only
    by_cases hg : g ≠ ""
    · rw [if_pos hg]
      cases ho : o (String.mk (removeSpacesL g.data)) with
      | none => exact Or.inl rfl
      | some p =>
        obtain ⟨la, lo⟩ := p
        exact Or.inr ⟨g, la, lo, rfl, hg, ho, rfl⟩
    · rw [if_neg hg]
      exact Or.inl rfl

theorem mgrs_ce_eq_ten_iff (o : String → Option (ℚ × ℚ)) (s : String) :
    (mgrs_to_decimal_degrees o s).ce = 10 ↔
      ∃ g la lo, mgrsCandidate s = some g ∧ g ≠ "" ∧
        o (String.mk (removeSpacesL g.data)) = some (la, lo) := by
  constructor
  · intro h
    rcases mgrs_shape o s with hm | ⟨g, la, lo, hc, hg, ho, hm⟩
    · rw [hm] at h
      exact absurd h (by norm_num [sentinelPoint])
    · exact ⟨g, la, lo, hc, hg, ho⟩
  · rintro ⟨g, la, lo, hc, hg, ho⟩
    unfold mgrs_to_decimal_degrees
    rw [hc]
    dsimp only
    rw [if_pos hg, ho]

theorem mgrs_sentinel_of_latlon_zero (o : String → Option (ℚ × ℚ)) (s : String)
    (h1 : (mgrs_to_decimal_degrees o s).lat = 0) (h2 : (mgrs_to_decimal_degrees o s).lon = 0) :
    (mgrs_to_decimal_degrees o s).ce = 10 ∨ (mgrs_to_decimal_degrees o s).ce = 9999999 := by
  rcases mgrs_shape o s with hm | ⟨g, la, lo, _, _, _, hm⟩
  · rw [hm]
    exact Or.inr rfl
  · rw [hm]
    exact Or.inl rfl

/-! ### Claim C5 -/

/-- C5: the coordinate resolver is total (its `ce` is always one of exactly
`10.0`, `100.0`, `9999999.0`, the code never throws — the only external call
sits behind the `try`/`except`, modelled by the `toLatLon` oracle), and:
the MGRS stage yields `ce = 10` exactly when an MGRS candidate is extracted
and the geodetic library converts it; the end-to-end result has `ce = 10`
exactly when the MGRS stage produced a point other than `(0, 0)`;
`ce = 100` exactly when the MGRS stage failed (or returned `(0, 0)`) and a
decimal lat/lon pair was found in the original text; and the sentinel
(`ce = 9999999 ≥ 9999999`) exactly when the text is empty or both stages
failed. -/
theorem C5_coordinate_resolver (toLatLon : String → Option (ℚ × ℚ)) (loc : String) :
    ((extract_coordinates_from_location toLatLon loc).ce = 10 ∨
      (extract_coordinates_from_location toLatLon loc).ce = 100 ∨
      (extract_coordinates_from_location toLatLon loc).ce = 9999999) ∧
    ((mgrs_to_decimal_degrees toLatLon loc).ce = 10 ↔
      ∃ g la lo, mgrsCandidate loc = some g ∧ g ≠ "" ∧
        toLatLon (String.mk (removeSpacesL g.data)) = some (la, lo)) ∧
    ((extract_coordinates_from_location toLatLon loc).ce = 10 ↔
      loc ≠ "" ∧ ((mgrs_to_decimal_degrees toLatLon loc).lat ≠ 0 ∨
        (mgrs_to_decimal_degrees toLatLon loc).lon ≠ 0)) ∧
    ((extract_coordinates_from_location toLatLon loc).ce = 100 ↔
      loc ≠ "" ∧ (mgrs_to_decimal_degrees toLatLon loc).lat = 0 ∧
        (mgrs_to_decimal_degrees toLatLon loc).lon = 0 ∧
        (decimalPairSearch loc).isSome = true) ∧
    ((extract_coordinates_from_location toLatLon loc).ce = 9999999 ↔
      loc = "" ∨ ((mgrs_to_decimal_degrees toLatLon loc).lat = 0 ∧
        (mgrs_to_decimal_degrees toLatLon loc).lon = 0 ∧
        decimalPairSearch loc = none)) := by
  by_cases hloc : loc = ""
  · have hr : extract_coordinates_from_location toLatLon loc = sentinelPoint := by
      unfold extract_coordinates_from_location
      rw [if_pos hloc]
    refine ⟨Or.inr (Or.inr (by rw [hr]; rfl)), mgrs_ce_eq_ten_iff toLatLon loc, ?_, ?_, ?_⟩
    · rw [hr]
      constructor
      · intro h
        exact absurd h (by norm_num [sentinelPoint])
      · intro h
        exact absurd hloc h.1
    · rw [hr]
      constructor
      · intro h
        exact absurd h (by norm_num [sentinelPoint])
      · intro h
        exact absurd hloc h.1
    · rw [hr]
      exact ⟨fun _ => Or.inl hloc, fun _ => rfl⟩
  · have hru : extract_coordinates_from_location toLatLon loc =
        (if (mgrs_to_decimal_degrees toLatLon loc).lat ≠ 0 ∨
            (mgrs_to_decimal_degrees toLatLon loc).lon ≠ 0 then
          mgrs_to_decimal_degrees toLatLon loc
        else
          match decimalPairSearch loc with
          | some (lat, lon) => (⟨lat, lon, 0, 100, 100⟩ : GeoPoint)
          | none => sentinelPoint) := by
      unfold extract_coordinates_from_location
      rw [if_neg hloc]
    by_cases hnz : (mgrs_to_decimal_degrees toLatLon loc).lat ≠ 0 ∨
        (mgrs_to_decimal_degrees toLatLon loc).lon ≠ 0
    · have hr : extract_coordinates_from_location toLatLon loc =
          mgrs_to_decimal_degrees toLatLon loc := by rw [hru, if_pos hnz]
      have hce : (mgrs_to_decimal_degrees toLatLon loc).ce = 10 := by
        rcases mgrs_shape toLatLon loc with hm | ⟨g, la, lo, _, _, _, hm⟩
        · rw [hm] at hnz
          simp [sentinelPoint] at hnz
        · rw [hm]
      refine ⟨Or.inl (by rw [hr]; exact hce), mgrs_ce_eq_ten_iff toLatLon loc, ?_, ?_, ?_⟩
      · rw [hr]
        exact ⟨fun _ => ⟨hloc, hnz⟩, fun _ => hce⟩
      · rw [hr]
        constructor
        · intro h
          rw [hce] at h
          exact absurd h (by norm_num)
        · rintro ⟨_, h1, h2, _⟩
          rcases hnz with hh | hh
          · exact absurd h1 hh
          · exact absurd h2 hh
      · rw [hr]
        constructor
        · intro h
          rw [hce] at h
          exact absurd h (by norm_num)
        · rintro (h | ⟨h1, h2, _⟩)
          · exact absurd h hloc
          · rcases hnz with hh | hh
            · exact absurd h1 hh
            · exact absurd h2 hh
    · have hzero : (mgrs_to_decimal_degrees toLatLon loc).lat = 0 ∧
          (mgrs_to_decimal_degrees toLatLon loc).lon = 0 := by
        push_neg at hnz
        exact hnz
      have hr0 : extract_coordinates_from_location toLatLon loc =
          (match decimalPairSearch loc with
          | some (lat, lon) => (⟨lat, lon, 0, 100, 100⟩ : GeoPoint)
          | none => sentinelPoint) := by rw [hru, if_neg hnz]
      cases hd : decimalPairSearch loc with
      | some p =>
        obtain ⟨da, db⟩ := p
        have hr : extract_coordinates_from_location toLatLon loc =
            (⟨da, db, 0, 100, 100⟩ : GeoPoint) := by rw [hr0, hd]
        refine ⟨Or.inr (Or.inl (by rw [hr])), mgrs_ce_eq_ten_iff toLatLon loc, ?_, ?_, ?_⟩
        · rw [hr]
          constructor
          · intro h
            exact absurd h (by norm_num)
          · rintro ⟨_, h⟩
            exact absurd h hnz
        · rw [hr]
          exact ⟨fun _ => ⟨hloc, hzero.1, hzero.2, rfl⟩, fun _ => rfl⟩
        · rw [hr]
          constructor
          · intro h
            exact absurd h (by norm_num)
          · rintro (h | ⟨_, _, h⟩)
            · exact absurd h hloc
            · exact absurd h (by simp)
      | none =>
        have hr : extract_coordinates_from_location toLatLon loc = sentinelPoint := by
          rw [hr0, hd]
        refine ⟨Or.inr (Or.inr (by rw [hr]; rfl)), mgrs_ce_eq_ten_iff toLatLon loc, ?_, ?_, ?_⟩
        · rw [hr]
          constructor
          · intro h
            exact absurd h (by norm_num [sentinelPoint])
          · rintro ⟨_, h1 | h2⟩
            · exact absurd hzero.1 h1
            · exact absurd hzero.2 h2
        · rw [hr]
          constructor
          · intro h
            exact absurd h (by norm_num [sentinelPoint])
          · rintro ⟨_, _, _, h⟩
            exact absurd h (by simp)
        · rw [hr]
          exact ⟨fun _ => Or.inr ⟨hzero.1, hzero.2, rfl⟩, fun _ => rfl⟩

end RepGen
